import Mathlib

/-!
# Verification of the Yo Store backend (api.py, models.py, maintenance scripts)

Shallow embedding of the parts of the repository that the checked claims
are about: the relational rows (`models.py`), the file-backed price store
(spec-modelled, `price_storage.py` is not part of the shown sources), the
catalog listing/search endpoints, the promo-code check, order creation,
the product create/update/delete endpoints and the category seeding
scripts.

Modelling conventions:
* Python floats carrying money are modelled as `Rat`.
* A TEXT column holding a JSON document is modelled by the *result* of
  `json.loads` on it: `Option (Except Unit Json)`, where `none` stands for
  SQL NULL or the empty string (both are falsy in the source's
  `if self.specifications:` guards), `some (.error ())` for a non-empty
  string that fails to parse and `some (.ok j)` for a string parsing to
  `j`.  JSON objects are association lists whose keys are distinct (as
  produced by `json.loads`).
* Uncaught Python exceptions are modelled with `Except PyErr`.
-/

namespace YoStore

/-- JSON values as produced by `json.loads`. -/
inductive Json where
  | obj  : List (String × Json) → Json
  | arr  : List Json → Json
  | str  : String → Json
  | num  : Rat → Json
  | bool : Bool → Json
  | null : Json

/-- Python exceptions that escape the handlers' `except` clauses. -/
inductive PyErr where
  | attributeError
  | typeError
  | keyError
deriving DecidableEq, Repr

/-- Python truthiness of a parsed JSON value
(`False`, `0`, `""`, `[]`, `{}` and `None` are falsy). -/
def jsonTruthy : Json → Bool
  | .obj kvs => !kvs.isEmpty
  | .arr xs  => !xs.isEmpty
  | .str s   => s ≠ ""
  | .num q   => q ≠ 0
  | .bool b  => b
  | .null    => false

/-- Truthiness of an optional string (SQL NULL and `""` are falsy). -/
def optStrTruthy : Option String → Bool
  | none => false
  | some s => s ≠ ""

/-- Truthiness of an optional number (`None` and `0` are falsy). -/
def optRatTruthy : Option Rat → Bool
  | none => false
  | some q => q ≠ 0

/-- Model of a parsed TEXT column: `none` = NULL or empty string,
`some (.error ())` = fails `json.loads`, `some (.ok j)` = parses to `j`. -/
abbrev TextDoc := Option (Except Unit Json)

/-- The payload of a successful `Except`, with a default. -/
def exceptD (e : Except ε α) (d : α) : α :=
  match e with
  | .ok v => v
  | .error _ => d

/-- Python `str.upper()` (ASCII case mapping; no embedded claim depends
on non-ASCII case folding). -/
def pyUpper (s : String) : String :=
  String.mk (s.toList.map Char.toUpper)

/-- Python `str.lower()` (ASCII case mapping). -/
def pyLower (s : String) : String :=
  String.mk (s.toList.map Char.toLower)

/-- Python slicing `s[:n]`. -/
def strTake (s : String) (n : Nat) : String :=
  String.mk (s.toList.take n)

/-- Python `str.strip()`. -/
def strTrim (s : String) : String :=
  String.mk
    (((s.toList.dropWhile Char.isWhitespace).reverse.dropWhile
      Char.isWhitespace).reverse)

/-- Split a character list at every separator occurrence. -/
def splitChar (sep : Char) : List Char → List (List Char)
  | [] => [[]]
  | c :: cs =>
    let r := splitChar sep cs
    if c == sep then [] :: r
    else
      match r with
      | h :: t => (c :: h) :: t
      | [] => [[c]]

/-- Python `s.split(',')`. -/
def splitOnComma (s : String) : List String :=
  (splitChar ',' s.toList).map String.mk

/-- Whether `pre` is a prefix of `l`. -/
def listStartsWith : List Char → List Char → Bool
  | [], _ => true
  | _ :: _, [] => false
  | x :: xs, y :: ys => x == y && listStartsWith xs ys

/-- Whether `a` occurs contiguously inside `b`. -/
def listContainsSeq (a b : List Char) : Bool :=
  match b with
  | [] => a.isEmpty
  | _ :: bs => listStartsWith a b || listContainsSeq a bs

/-- Python `a.lower() in b.lower()` (case-insensitive substring test). -/
def substrCI (a b : String) : Bool :=
  listContainsSeq (pyLower a).toList (pyLower b).toList

/-- The `products` table row (`models.py`, class `Product`). -/
structure Product where
  id : Nat
  sku : String
  name : String
  brand : String
  level_0 : String
  level_1 : Option String
  level_2 : Option String
  specifications : TextDoc
  stock : Int
  is_available : Bool

/-- Shared body of the `color` / `disk` / `sim_config` properties of
`Product` (`models.py` lines 35-66): parse `specifications`, then
`specs.get(key, '')`.  `json.JSONDecodeError` and `TypeError` are caught
and yield `''`; calling `.get` on a parse result that is not a dict
raises `AttributeError`, which is not caught. -/
def Product.specGet (p : Product) (key : String) : Except PyErr Json :=
  match p.specifications with
  | none => .ok (.str "")
  | some (.error _) => .ok (.str "")
  | some (.ok (.obj kvs)) => .ok ((kvs.lookup key).getD (.str ""))
  | some (.ok _) => .error .attributeError

/-- Derived `Product.color` property (`models.py` 35-44). -/
def Product.color (p : Product) : Except PyErr Json :=
  p.specGet "color"

/-- Derived `Product.disk` property (`models.py` 46-55). -/
def Product.disk (p : Product) : Except PyErr Json :=
  p.specGet "disk"

/-- Derived `Product.sim_config` property (`models.py` 57-66). -/
def Product.sim_config (p : Product) : Except PyErr Json :=
  p.specGet "sim_config"

/-- Derived `Product.memory` property, an alias for `disk`
(`models.py` 68-71). -/
def Product.memory (p : Product) : Except PyErr Json :=
  p.disk

/-- Modelled from the spec: the file-backed price store record
(`price_storage.py` is not among the shown sources; §4.4 of the spec
documents the record as `{price, old_price, currency,
discount_percentage, is_parse}` keyed by SKU).  `old_price` is kept
optional because the document is an external JSON file read with
`dict.get`. -/
structure PriceRec where
  price : Rat
  old_price : Option Rat
  currency : String
  discount_percentage : Rat
  is_parse : Bool

/-- The price store: a JSON document keyed by SKU. -/
abbrev PriceStore := List (String × PriceRec)

/-- Lookup in the price document by SKU key. -/
def storeLookup : PriceStore → String → Option PriceRec
  | [], _ => none
  | kv :: t, k => if kv.1 == k then some kv.2 else storeLookup t k

/-- Modelled from the spec: `get_price(sku)` returns the record for the
SKU or an absence sentinel (spec §4.4). -/
def get_price (store : PriceStore) (sku : String) : Option PriceRec :=
  storeLookup store sku

/-- Modelled from the spec: the derived discount percentage,
`(old_price − price) / old_price × 100` when `old_price > price`,
else `0` (spec §4.4). -/
def calcDiscount (price old : Rat) : Rat :=
  if old > price then (old - price) / old * 100 else 0

/-- Modelled from the spec: `set_price(sku, price, old_price, currency,
is_parse)` inserts or overwrites the record for the SKU; the discount
percentage is always derived (spec §4.4).  All call sites embedded here
pass every argument explicitly. -/
def set_price (store : PriceStore) (sku : String) (price : Rat)
    (old : Rat) (currency : String) (is_parse : Bool) : PriceStore :=
  (sku, { price := price, old_price := some old, currency := currency,
          discount_percentage := calcDiscount price old,
          is_parse := is_parse }) :: store.filter (fun kv => kv.1 ≠ sku)

/-- Modelled from the spec: `delete_price(sku)` removes the record, a
no-op if absent (spec §4.4). -/
def delete_price (store : PriceStore) (sku : String) : PriceStore :=
  store.filter (fun kv => kv.1 ≠ sku)

/-- Model of the parsed `img_list` TEXT column of `product_images`.
`get_product_images` (api.py 66-70) re-parses the value a second time
when `json.loads` returns a string (double-encoded JSON), so the model of
this column also carries the inner parse result in that case. -/
inductive ImgListDoc where
  | empty
  | malformed
  | plain (v : Json)
  | encodedStr (inner : Except Unit Json)

/-- The `product_images` table row (`models.py`, class `ProductImage`). -/
structure ProductImage where
  id : Nat
  level_2 : String
  color : String
  img_list : ImgListDoc

/-- The `categories` table row (`models.py`, class `Category`). -/
structure CategoryRow where
  id : Nat
  level_0 : String
  level_1 : Option String
  level_2 : Option String
  description : Option String
  icon : Option String

/-- The `level2_descriptions` table row (`models.py`,
class `Level2Description`). -/
structure Level2Description where
  id : Nat
  level_2 : String
  description : String
  details : TextDoc

/-- The `promo_codes` table row (`models.py`, class `PromoCode`).
Datetimes are modelled as natural-number timestamps. -/
structure PromoCode where
  id : Nat
  code : String
  discount_type : String
  discount_value : Option Rat
  min_order_amount : Option Rat
  free_item_sku : Option String
  free_item_condition : TextDoc
  is_active : Bool
  usage_limit : Option Nat
  used_count : Nat
  valid_from : Option Nat
  valid_until : Option Nat
  description : Option String

/-- The `orders` table row (`models.py`, class `Order`). -/
structure Order where
  id : Nat
  order_number : String
  customer_name : String
  contact_method : String
  contact_value : String
  address : Option String
  comment : Option String
  shipping_type : String
  delivery_option : Option String
  pickup_address : Option String
  delivery_datetime : Option Nat
  total : Rat
  promo_code : Option String
  discount_amount : Rat
  final_total : Rat
  status : String

/-- The `order_items` table row (`models.py`, class `OrderItem`). -/
structure OrderItem where
  id : Nat
  order_id : Nat
  product_id : Nat
  product_name : String
  price : Rat
  quantity : Int
  color : Option String
  memory : Option String
  sim : Option String
  ram : Option String

/-- The whole mutable state an API request can observe: the relational
tables plus the file-backed price store. -/
structure DBState where
  products : List Product
  categories : List CategoryRow
  images : List ProductImage
  level2descs : List Level2Description
  promo_codes : List PromoCode
  orders : List Order
  order_items : List OrderItem
  prices : PriceStore

/-! ## Catalog listing (`GET /products`, api.py 316-466) and search
(`GET /search`, api.py 662-800) -/

/-- Iterating a Python value with `for`: lists yield their elements,
dicts their keys, strings their characters; other values raise
`TypeError` (api.py 46, 74: `for img_data in images_data`). -/
def iterAsPyList : Json → Except PyErr (List Json)
  | .arr xs => .ok xs
  | .obj kvs => .ok (kvs.map (fun kv => Json.str kv.1))
  | .str s => .ok (s.toList.map (fun c => Json.str (String.singleton c)))
  | _ => .error .typeError

/-- The image-entry loop shared by both halves of `get_product_images`
(api.py 46-52 and 74-78): a dict entry contributes `entry["url"]`
(raising `KeyError` when the key is missing — only
`json.JSONDecodeError`/`TypeError` are caught there), a string entry
contributes itself, anything else is skipped. -/
def collectUrls (entries : List Json) : Except PyErr (List Json) :=
  entries.foldlM
    (fun acc e =>
      match e with
      | .obj kvs =>
        match kvs.lookup "url" with
        | some v => .ok (acc ++ [v])
        | none => .error .keyError
      | .str s => .ok (acc ++ [Json.str s])
      | _ => .ok acc)
    []

/-- First half of `get_product_images` (api.py 41-55): read
`specs.get('images', [])` from the product's own specifications.  A parse
failure of `specifications` is caught (`except json.JSONDecodeError`);
calling `.get` on a non-dict parse result raises `AttributeError`, which
is not caught. -/
def imagesFromSpecs (product : Product) : Except PyErr (List Json) :=
  match product.specifications with
  | none => .ok []
  | some (.error _) => .ok []
  | some (.ok (.obj kvs)) =>
    match kvs.lookup "images" with
    | none => .ok []
    | some v => do collectUrls (← iterAsPyList v)
  | some (.ok _) => .error .attributeError

/-- Second half of `get_product_images` (api.py 57-80): when the first
half found nothing, look the image set up in `ProductImage` by
`(level_2, color)` and parse its `img_list`, tolerating double-encoded
JSON; a parse failure is caught, a missing `url` key raises. -/
def imagesFromTable (s : DBState) (product : Product) (colorv : Json) :
    Except PyErr (List Json) :=
  let row := s.images.find? (fun pi =>
    some pi.level_2 == product.level_2 &&
    (match colorv with | .str c => pi.color == c | _ => false))
  match row with
  | none => .ok []
  | some pi =>
    match pi.img_list with
    | .empty => .ok []
    | .malformed => .ok []
    | .plain v =>
      match v with
      | .arr entries => collectUrls entries
      | _ => .ok []
    | .encodedStr inner =>
      match inner with
      | .error _ => .ok []
      | .ok (.arr entries) => collectUrls entries
      | .ok _ => .ok []

/-- `get_product_images(product, db)` (api.py 37-83). -/
def get_product_images (s : DBState) (product : Product) :
    Except PyErr (List Json) := do
  let imgs ← imagesFromSpecs product
  if imgs.isEmpty then
    let colorv ← product.color
    if optStrTruthy product.level_2 && jsonTruthy colorv then
      imagesFromTable s product colorv
    else
      .ok []
  else
    .ok imgs

/-- The summary assembled in the card loop of `/products` and `/search`. -/
structure CardPrice where
  price : Rat
  old_price : Rat
  discount_percentage : Rat
  currency : String

/-- One step of the minimum-price scan over a model's variants
(api.py 375-382): a variant without a price record is skipped; a variant
whose price is strictly below the current minimum (or the first priced
variant) becomes the new best, carrying its whole record and currency. -/
def scanStep (s : DBState) (acc : Option Rat × Option PriceRec × String)
    (r : Product) : Option Rat × Option PriceRec × String :=
  match get_price s.prices r.sku with
  | none => acc
  | some vp =>
    match acc.1 with
    | none => (some vp.price, some vp, vp.currency)
    | some mp =>
      if vp.price < mp then (some vp.price, some vp, vp.currency) else acc

/-- All `Product` rows of the same `(level_2, brand)` model as `product`
(api.py 364-367); note this query is *not* restricted by the request's
filters. -/
def modelVariants (s : DBState) (product : Product) : List Product :=
  s.products.filter (fun r =>
    r.level_2 == product.level_2 && r.brand == product.brand)

/-- The price object of one model card (api.py 362-416): minimum price
over all variants holding a price record; its currency and old price
come from the record of the (first) minimum-priced variant, the old
price falling back to the minimum price when falsy (`None` or `0`); the
discount is recomputed; with no priced variant at all, the
representative's own record or an all-zero default is used. -/
def priceObjFor (s : DBState) (product : Product) : CardPrice :=
  let scan := (modelVariants s product).foldl (scanStep s)
    ((none : Option Rat), (none : Option PriceRec), "RUB")
  match scan with
  | (none, _, _) =>
    match get_price s.prices product.sku with
    | some pd =>
      { price := pd.price, old_price := pd.old_price.getD 0,
        discount_percentage := pd.discount_percentage,
        currency := pd.currency }
    | none =>
      { price := 0, old_price := 0, discount_percentage := 0,
        currency := "RUB" }
  | (some mp, best, cur) =>
    let mop : Rat :=
      match best with
      | some b =>
        match b.old_price with
        | some v => if v ≠ 0 then v else mp
        | none => mp
      | none => mp
    let d : Rat := if mop ≠ 0 ∧ mp < mop then (mop - mp) / mop * 100 else 0
    { price := mp, old_price := mop, discount_percentage := d,
      currency := cur }

/-- The product's own parsed specifications as used by the card loop
(api.py 418-421): `{}` when the column is falsy or fails to parse. -/
def ownSpecs (product : Product) : Json :=
  match product.specifications with
  | none => .obj []
  | some (.error _) => .obj []
  | some (.ok j) => j

/-- Description and details lookup of the card loop (api.py 423-434):
exact-match `Level2Description` lookup when `product.level_2` is truthy;
unparsable `details` degrade to `{}`. -/
def descAndDetails (s : DBState) (product : Product) : String × Json :=
  match product.level_2 with
  | some l2 =>
    if l2 ≠ "" then
      match s.level2descs.find? (fun d => d.level_2 == l2) with
      | some d =>
        (d.description,
         match d.details with
         | none => .obj []
         | some (.error _) => .obj []
         | some (.ok j) => j)
      | none => ("", .obj [])
    else ("", .obj [])
  | none => ("", .obj [])

/-- Python `{**a, **b}` (api.py 437, 771): keys of `a` first (values
overridden by `b` where both define the key), then the new keys of `b`;
splatting a non-mapping raises `TypeError`. -/
def splatMerge (a b : Json) : Except PyErr (List (String × Json)) :=
  match a, b with
  | .obj x, .obj y =>
    .ok ((x.map (fun kv => (kv.1, (y.lookup kv.1).getD kv.2))) ++
         y.filter (fun kv => (x.lookup kv.1).isNone))
  | _, _ => .error .typeError

/-- Category display name of the card loop (api.py 442-446). -/
def categoryName (p : Product) : String :=
  let base := if p.level_0 ≠ "" then p.level_0 else "Без категории"
  let base :=
    match p.level_1 with
    | some l1 => if l1 ≠ "" then base ++ " / " ++ l1 else base
    | none => base
  match p.level_2 with
  | some l2 => if l2 ≠ "" then base ++ " / " ++ l2 else base
  | none => base

/-- One element of the `/products` and `/search` responses
(`ProductResponse`, api.py 119-139, as filled in at 448-464/782-798). -/
structure Card where
  id : Nat
  sku : String
  name : String
  description : String
  brand : String
  model : String
  category_name : String
  level_2 : Option String
  image_url : Json
  images : List Json
  specifications : Json
  price : Rat
  old_price : Rat
  discount_percentage : Rat
  currency : String

/-- Build one model card (the loop body api.py 361-464, identical at
695-798).  The merged `all_specifications` map is computed — and can
raise — but the response's `specifications` field is filled from the
product's own `specifications` variable (api.py 437 vs 459). -/
def buildCard (s : DBState) (product : Product) : Except PyErr Card := do
  let po := priceObjFor s product
  let specsJ := ownSpecs product
  let dd := descAndDetails s product
  let _all_specifications ← splatMerge dd.2 specsJ
  let images ← get_product_images s product
  .ok { id := product.id, sku := product.sku, name := product.name,
        description := dd.1, brand := product.brand,
        model := product.level_2.getD "",
        category_name := categoryName product,
        level_2 := product.level_2,
        image_url := images.headD (.str ""), images := images,
        specifications := specsJ,
        price := po.price, old_price := po.old_price,
        discount_percentage := po.discount_percentage,
        currency := po.currency }

/-- Query parameters of `GET /products` (api.py 317-324). -/
structure ProductsQuery where
  brand : Option String
  level0 : Option String
  level1 : Option String
  level2 : Option String
  limit : Nat
  offset : Nat

/-- The filters of `GET /products` (api.py 330-345): each filter is
added only when the query parameter is truthy. -/
def matchesFilters (q : ProductsQuery) (p : Product) : Bool :=
  (match q.brand with
   | some b => if b ≠ "" then p.brand == b else true
   | none => true) &&
  (match q.level0 with
   | some v => if v ≠ "" then p.level_0 == v else true
   | none => true) &&
  (match q.level1 with
   | some v => if v ≠ "" then p.level_1 == some v else true
   | none => true) &&
  (match q.level2 with
   | some v => if v ≠ "" then p.level_2 == some v else true
   | none => true)

/-- Minimum of a list of naturals, as `MIN(id)` computes it. -/
def natMin? : List Nat → Option Nat
  | [] => none
  | n :: ns =>
    match natMin? ns with
    | none => some n
    | some m => some (if n ≤ m then n else m)

/-- The subquery `MIN(Product.id) ... GROUP BY level_2, brand` restricted
to one group key, over the filtered rows (api.py 348-350). -/
def groupMinId (rows : List Product) (k : Option String × String) :
    Option Nat :=
  natMin? ((rows.filter (fun r => r.level_2 == k.1 && r.brand == k.2)).map
    (fun r => r.id))

/-- The representative selection common to `/products` and `/search`
(api.py 348-355 / 682-689): the products whose id is the minimum id of
some `(level_2, brand)` group of the rows matching `rowPred`. -/
def selectedRepsBy (rowPred : Product → Bool) (s : DBState) :
    List Product :=
  let rows := s.products.filter rowPred
  s.products.filter (fun p =>
    rows.any (fun r => groupMinId rows (r.level_2, r.brand) == some p.id))

/-- SQL comparison of two nullable strings with NULL sorted first
ascending (hence last under `DESC`). -/
def optStrLt : Option String → Option String → Bool
  | none, none => false
  | none, some _ => true
  | some _, none => false
  | some a, some b => decide (a < b)

/-- The `ORDER BY Product.level_2 DESC, Product.id` comparison
(api.py 355 / 689). -/
def sortLE (a b : Product) : Bool :=
  optStrLt b.level_2 a.level_2 ||
    (a.level_2 == b.level_2 && decide (a.id ≤ b.id))

/-- Representatives in response order. -/
def sortedReps (rowPred : Product → Bool) (s : DBState) : List Product :=
  List.insertionSort (fun a b => sortLE a b = true) (selectedRepsBy rowPred s)

/-- The card loop (api.py 360-466): build the cards in order, the first
uncaught exception aborting the request. -/
def mapCards (s : DBState) : List Product → Except PyErr (List Card)
  | [] => .ok []
  | p :: ps => do
    let c ← buildCard s p
    let cs ← mapCards s ps
    .ok (c :: cs)

/-- `GET /products` (api.py 316-466). -/
def getProducts (s : DBState) (q : ProductsQuery) :
    Except PyErr (List Card) :=
  mapCards s (((sortedReps (matchesFilters q) s).drop q.offset).take q.limit)

/-- The row filter of `GET /search` (api.py 671-679): available products
whose name, brand or `level_2` contains the query case-insensitively. -/
def searchMatches (qstr : String) (p : Product) : Bool :=
  p.is_available &&
    (substrCI qstr p.name || substrCI qstr p.brand ||
      (match p.level_2 with
       | some l2 => substrCI qstr l2
       | none => false))

/-- `GET /search` (api.py 662-800). -/
def searchProducts (s : DBState) (qstr : String) (limit : Nat) :
    Except PyErr (List Card) :=
  mapCards s ((sortedReps (searchMatches qstr) s).take limit)

/-! ## Promo-code check (`POST /promo-codes/check`, api.py 2703-2837)
and order creation (`POST /orders`, api.py 2839-2909) -/

/-- Replace the first list element satisfying `p` (the in-place mutation
of the single row returned by `.first()`). -/
def updFirst (p : α → Bool) (f : α → α) : List α → List α
  | [] => []
  | x :: xs => if p x then f x :: xs else x :: updFirst p f xs

/-- The next autoincrement id for a table. -/
def nextId (ids : List Nat) : Nat :=
  ids.foldl Nat.max 0 + 1

/-- Python dict assignment `d[k] = v`: overwrite in place or append. -/
def dictSet (kvs : List (String × Json)) (k : String) (v : Json) :
    List (String × Json) :=
  if (kvs.lookup k).isSome then
    kvs.map (fun kv => if kv.1 == k then (k, v) else kv)
  else kvs ++ [(k, v)]

/-- One cart line of an order / promo-check request (`OrderItemCreate`,
api.py 2644-2652). -/
structure OrderItemCreate where
  product_id : Nat
  name : String
  price : Rat
  quantity : Int
  color : Option String := none
  memory : Option String := none
  sim : Option String := none
  ram : Option String := none

/-- Request body of `POST /promo-codes/check` (api.py 2687-2690). -/
structure PromoReq where
  code : String
  cart_total : Rat
  items : List OrderItemCreate

/-- Response of `POST /promo-codes/check` (api.py 2692-2701). -/
structure PromoResp where
  valid : Bool
  discount_type : Option String := none
  discount_value : Option Rat := none
  discount_amount : Option Rat := none
  min_order_amount : Option Rat := none
  description : Option String := none
  free_item_sku : Option String := none
  free_item_name : Option String := none
  message : Option String := none

/-- The lookup at api.py 2708-2711: first promo row whose code equals the
upper-cased input and which is active. -/
def findActivePromo (s : DBState) (codeUp : String) : Option PromoCode :=
  s.promo_codes.find? (fun pc => pc.code == codeUp && pc.is_active)

/-- Gate api.py 2721: `valid_from` set and in the future. -/
def validFromRejects (now : Nat) (pc : PromoCode) : Bool :=
  match pc.valid_from with
  | some t => decide (now < t)
  | none => false

/-- Gate api.py 2727: `valid_until` set and in the past. -/
def validUntilRejects (now : Nat) (pc : PromoCode) : Bool :=
  match pc.valid_until with
  | some t => decide (t < now)
  | none => false

/-- Gate api.py 2734: truthy usage limit reached. -/
def usageLimitRejects (pc : PromoCode) : Bool :=
  match pc.usage_limit with
  | some l => l ≠ 0 && decide (l ≤ pc.used_count)
  | none => false

/-- Gate api.py 2741: truthy minimum order amount not reached. -/
def minAmountRejects (cartTotal : Rat) (pc : PromoCode) : Bool :=
  match pc.min_order_amount with
  | some m => m ≠ 0 && decide (cartTotal < m)
  | none => false

/-- The successful-check response (api.py 2824-2834). -/
def promoOkResp (pc : PromoCode) (amount : Rat)
    (fsku fname : Option String) : PromoResp :=
  { valid := true, discount_type := some pc.discount_type,
    discount_value := pc.discount_value, discount_amount := some amount,
    min_order_amount := pc.min_order_amount,
    description := pc.description, free_item_sku := fsku,
    free_item_name := fname, message := some "Промокод применен успешно" }

/-- The first cart line whose product row exists and whose SKU contains
the free-item SKU as a case-insensitive substring (the loop with `break`
at api.py 2791-2796). -/
def findFreeItemInCart (s : DBState) (f : String)
    (items : List OrderItemCreate) : Option Product :=
  items.findSome? (fun item =>
    match s.products.find? (fun p => p.id == item.product_id) with
    | some p => if p.sku ≠ "" && substrCI f p.sku then some p else none
    | none => none)

/-- The category value extracted from a parsed `free_item_condition`
object: `condition.get('category') or condition.get('level_0')`
(api.py 2766). -/
def conditionCategory (kvs : List (String × Json)) : Option Json :=
  match kvs.lookup "category" with
  | some v => if jsonTruthy v then some v else kvs.lookup "level_0"
  | none => kvs.lookup "level_0"

/-- Whether some cart line's product has `level_0` equal to the category
value (the loop at api.py 2769-2775; a non-string category never equals
the string column). -/
def hasCategoryItem (s : DBState) (category : Option Json)
    (items : List OrderItemCreate) : Bool :=
  items.any (fun item =>
    match s.products.find? (fun p => p.id == item.product_id) with
    | some p =>
      match category with
      | some (.str c) => p.level_0 == c
      | _ => false
    | none => false)

/-- The `free_item` arm of the discount computation (api.py 2760-2822):
category gate (parse failures of the condition document are caught, a
non-object parse raises `AttributeError` out of the handler), then the
requirement that the designated SKU already be in the cart, then the
price lookup for the matched item. -/
def freeItemBranch (s : DBState) (pc : PromoCode) (req : PromoReq) :
    Except PyErr PromoResp := do
  let gate : Except PyErr (Option PromoResp) :=
    match pc.free_item_condition with
    | none => .ok none
    | some (.error _) => .ok none
    | some (.ok (.obj kvs)) =>
      if hasCategoryItem s (conditionCategory kvs) req.items then .ok none
      else
        .ok (some
          { valid := false
            message := some "Промокод действует только при заказе товара нужной категории" })
    | some (.ok _) => .error .attributeError
  match ← gate with
  | some resp => .ok resp
  | none =>
    match pc.free_item_sku with
    | some f =>
      if f ≠ "" then
        match findFreeItemInCart s f req.items with
        | none =>
          .ok
            { valid := false
              message := some "Промокод действует только если адаптер уже добавлен в корзину" }
        | some p =>
          match get_price s.prices p.sku with
          | some pd => .ok (promoOkResp pc pd.price (some p.sku) (some p.name))
          | none =>
            .ok
              { valid := false
                message := some "Не удалось определить цену товара для бесплатной выдачи" }
      else .ok (promoOkResp pc 0 none none)
    | none => .ok (promoOkResp pc 0 none none)

/-- `POST /promo-codes/check` (api.py 2703-2837).  `now` is the current
timestamp; `TypeError` escaping the arithmetic (a `fixed` / `percentage`
code without a stored `discount_value`) reaches the outer handler as an
internal error. -/
def checkPromoCode (s : DBState) (now : Nat) (req : PromoReq) :
    Except PyErr PromoResp :=
  match findActivePromo s (pyUpper req.code) with
  | none =>
    .ok { valid := false, message := some "Промокод не найден или неактивен" }
  | some pc =>
    if validFromRejects now pc then
      .ok { valid := false, message := some "Промокод еще не действует" }
    else if validUntilRejects now pc then
      .ok { valid := false, message := some "Промокод истек" }
    else if usageLimitRejects pc then
      .ok { valid := false, message := some "Промокод исчерпан" }
    else if minAmountRejects req.cart_total pc then
      .ok
        { valid := false
          message := some "Минимальная сумма заказа для этого промокода не достигнута" }
    else if pc.discount_type == "fixed" then
      match pc.discount_value with
      | some dv => .ok (promoOkResp pc (min dv req.cart_total) none none)
      | none => .error .typeError
    else if pc.discount_type == "percentage" then
      match pc.discount_value with
      | some dv => .ok (promoOkResp pc (req.cart_total * (dv / 100)) none none)
      | none => .error .typeError
    else if pc.discount_type == "free_item" then
      freeItemBranch s pc req
    else
      .ok (promoOkResp pc 0 none none)

/-- The promo-check handler as a state transition: the handler only reads
from the session and the price store and never assigns or adds anything
(api.py 2703-2837), so the state component is returned unchanged. -/
def runCheckPromo (s : DBState) (now : Nat) (req : PromoReq) :
    DBState × Except PyErr PromoResp :=
  (s, checkPromoCode s now req)

/-- Request body of `POST /orders` (api.py 2654-2673).  `delivery_parse`
models the `fromisoformat` outcome on the optional delivery string:
`none` = field absent or falsy, `some none` = present but unparsable
(tolerated), `some (some t)` = parses to `t`. -/
structure CustomerInfo where
  name : String
  contact_method : String
  contact_value : String
  address : Option String := none
  comment : Option String := none

/-- Shipping block of the order body (api.py 2661-2664). -/
structure ShippingInfo where
  type : String
  delivery_option : Option String := none
  pickup_address : Option String := none

/-- The full order body (api.py 2666-2673). -/
structure OrderCreate where
  customer : CustomerInfo
  shipping : ShippingInfo
  delivery_parse : Option (Option Nat) := none
  items : List OrderItemCreate
  total : Rat
  promo_code : Option String := none
  discount_amount : Option Rat := none

/-- Python `x or None` on an optional string (api.py 2895-2898):
an empty string becomes `None`. -/
def orNone : Option String → Option String
  | some s => if s ≠ "" then some s else none
  | none => none

/-- `POST /orders` (api.py 2839-2909): generate the order number,
best-effort increment of the referenced promo code's `used_count`
(no activity check, first row matching the upper-cased code), compute
`final_total = max(0, total − discount)` and persist the order with its
line items in one commit. -/
def createOrder (s : DBState) (nowStr : String) (body : OrderCreate) :
    DBState × Order :=
  let order_number :=
    "ORD-" ++ nowStr ++ "-" ++ toString (s.orders.length + 1)
  let promos :=
    match body.promo_code with
    | some code =>
      if code ≠ "" then
        updFirst (fun pc => pc.code == pyUpper code)
          (fun pc => { pc with used_count := pc.used_count + 1 })
          s.promo_codes
      else s.promo_codes
    | none => s.promo_codes
  let discount := body.discount_amount.getD 0
  let final_total := max 0 (body.total - discount)
  let oid := nextId (s.orders.map (fun o => o.id))
  let order : Order :=
    { id := oid, order_number := order_number,
      customer_name := body.customer.name,
      contact_method := body.customer.contact_method,
      contact_value := body.customer.contact_value,
      address := body.customer.address, comment := body.customer.comment,
      shipping_type := body.shipping.type,
      delivery_option := body.shipping.delivery_option,
      pickup_address := body.shipping.pickup_address,
      delivery_datetime :=
        (match body.delivery_parse with
         | some (some t) => some t
         | _ => none),
      total := body.total, promo_code := body.promo_code,
      discount_amount := discount, final_total := final_total,
      status := "new" }
  let base := nextId (s.order_items.map (fun it => it.id))
  let itemRows := body.items.enum.map (fun pr =>
    ({ id := base + pr.1, order_id := oid, product_id := pr.2.product_id,
       product_name := pr.2.name, price := pr.2.price,
       quantity := pr.2.quantity, color := orNone pr.2.color,
       memory := orNone pr.2.memory, sim := orNone pr.2.sim,
       ram := orNone pr.2.ram } : OrderItem))
  ({ s with orders := s.orders ++ [order],
            order_items := s.order_items ++ itemRows,
            promo_codes := promos }, order)

/-! ## Admin catalog write endpoints (api.py 2110-2199, 2460-2616) and the
spreadsheet import row handlers (api.py 924-1003, 1122-1240) -/

/-- `ensure_category_exists(db, level0, level1, level2)` (api.py 177-200):
insert the missing `Category` rows at each of the three levels. -/
def ensureCategoryExists (cats : List CategoryRow)
    (l0 l1 l2 : Option String) : List CategoryRow :=
  let cats :=
    match l0 with
    | some a =>
      if a ≠ "" then
        if cats.any (fun c =>
            c.level_0 == a && c.level_1 == none && c.level_2 == none) then
          cats
        else
          cats ++ [{ id := nextId (cats.map (fun c => c.id)), level_0 := a,
                     level_1 := none, level_2 := none, description := none,
                     icon := none }]
      else cats
    | none => cats
  let cats :=
    match l0, l1 with
    | some a, some b =>
      if a ≠ "" && b ≠ "" then
        if cats.any (fun c =>
            c.level_0 == a && c.level_1 == some b && c.level_2 == none) then
          cats
        else
          cats ++ [{ id := nextId (cats.map (fun c => c.id)), level_0 := a,
                     level_1 := some b, level_2 := none, description := none,
                     icon := none }]
      else cats
    | _, _ => cats
  match l0, l1, l2 with
  | some a, some b, some c =>
    if a ≠ "" && b ≠ "" && c ≠ "" then
      if cats.any (fun r =>
          r.level_0 == a && r.level_1 == some b && r.level_2 == some c) then
        cats
      else
        cats ++ [{ id := nextId (cats.map (fun r => r.id)), level_0 := a,
                   level_1 := some b, level_2 := some c, description := none,
                   icon := none }]
    else cats
  | _, _, _ => cats

/-- `parse_images_from_string` (api.py 85-94): split a comma-separated
cell, trim and drop empties. -/
def parse_images_from_string (st : String) : List String :=
  ((splitOnComma st).map (fun u => strTrim u)).filter (fun u => u ≠ "")

/-- Fold the optional `color`/`ram`/`disk`/`sim_config` body fields into
a specifications map, truthy values only (api.py 2141-2148, 955-962,
1195-1202). -/
def foldSpecKeys (specs : List (String × Json))
    (keyvals : List (String × Option String)) : List (String × Json) :=
  keyvals.foldl
    (fun acc kv =>
      match kv.2 with
      | some v => if v ≠ "" then dictSet acc kv.1 (.str v) else acc
      | none => acc)
    specs

/-- Python `dict(x or {})` on a request-body value (api.py 2140, 954,
1194): absent or falsy gives the empty map, a truthy mapping gives its
entries, a truthy non-mapping raises `TypeError`. -/
def dictOfBodyVal : Option Json → Except PyErr (List (String × Json))
  | none => .ok []
  | some v =>
    if jsonTruthy v then
      match v with
      | .obj kvs => .ok kvs
      | _ => .error .typeError
    else .ok []

/-- Request body of `POST /import-single-product` (api.py 2110-2199).
The `level_2` field models the separate `'level_2'` body key probed at
api.py 2179 (distinct from the `'level2'` key that fills the column). -/
structure CreateBody where
  name : Option String := none
  brand : Option String := none
  model : Option String := none
  sku : Option String := none
  images : List Json := []
  specifications : Option Json := none
  color : Option String := none
  ram : Option String := none
  disk : Option String := none
  sim_config : Option String := none
  level0 : Option String := none
  level1 : Option String := none
  level2 : Option String := none
  level_2 : Option String := none
  stock : Option Int := none
  is_available : Option Bool := none
  price : Option Rat := none
  old_price : Option Rat := none
  is_parse : Option Bool := none

/-- Result of `POST /import-single-product`. -/
inductive CreateResult where
  | ok (productId : Nat) (sku : String)
  | badRequest

/-- `POST /import-single-product` (api.py 2110-2199): required truthy
`name`/`brand`/`model`; SKU generated from the brand prefix and the
timestamp when absent; an existing SKU is rejected with a client error
before anything is written; otherwise the product is inserted, its
categories ensured, its initial price written when given, and an image
row added when the `'level_2'`/`'color'` keys and images are present. -/
def importSingleProduct (s : DBState) (ts : Nat) (body : CreateBody) :
    DBState × CreateResult :=
  if !(optStrTruthy body.name && optStrTruthy body.brand &&
       optStrTruthy body.model) then
    (s, .badRequest)
  else
    let genSku := pyUpper (strTake (body.brand.getD "") 3) ++ toString ts
    let sku := if optStrTruthy body.sku then body.sku.getD "" else genSku
    if s.products.any (fun p => p.sku == sku) then (s, .badRequest)
    else
      match dictOfBodyVal body.specifications with
      | .error _ => (s, .badRequest)
      | .ok specs0 =>
        let specs := foldSpecKeys specs0
          [("color", body.color), ("ram", body.ram), ("disk", body.disk),
           ("sim_config", body.sim_config)]
        let newId := nextId (s.products.map (fun p => p.id))
        let new_product : Product :=
          { id := newId, sku := sku, name := body.name.getD "",
            brand := body.brand.getD "",
            level_0 := body.level0.getD "",
            level_1 := some (body.level1.getD ""),
            level_2 := some (body.level2.getD ""),
            specifications := some (.ok (.obj specs)),
            stock := body.stock.getD 0,
            is_available := body.is_available.getD true }
        let cats := ensureCategoryExists s.categories body.level0 body.level1
          body.level2
        let prices :=
          match body.price with
          | some pr =>
            if pr ≠ 0 then
              set_price s.prices sku pr (body.old_price.getD pr) "RUB"
                (body.is_parse.getD true)
            else s.prices
          | none => s.prices
        let images :=
          if !body.images.isEmpty && optStrTruthy body.level_2 &&
             optStrTruthy body.color then
            s.images ++
              [{ id := nextId (s.images.map (fun i => i.id)),
                 level_2 := body.level_2.getD "", color := body.color.getD "",
                 img_list := .plain (.arr body.images) }]
          else s.images
        ({ s with products := s.products ++ [new_product],
                  categories := cats, prices := prices, images := images },
         .ok newId sku)

/-- Request body of `PUT /products/{product_id}` (api.py 2460-2548); a
`some` field models the key being present in the JSON body. -/
structure UpdateBody where
  name : Option String := none
  brand : Option String := none
  level_0 : Option String := none
  level_1 : Option String := none
  level_2 : Option String := none
  color : Option String := none
  disk : Option String := none
  sim_config : Option String := none
  is_available : Option Bool := none
  stock : Option Int := none
  img_list : Option ImgListDoc := none
  price : Option Rat := none
  old_price : Option Rat := none
  currency : Option String := none

/-- Result of `PUT /products/{product_id}`. -/
inductive UpdateResult where
  | ok (productId : Nat) (sku : String)
  | notFound
  | serverError

/-- The field assignments of `PUT /products/{product_id}`
(api.py 2471-2492) applied to the ORM object, excluding the three
property assignments that raise. -/
def applyUpdateFields (body : UpdateBody) (p : Product) : Product :=
  let p := match body.name with | some v => { p with name := v } | none => p
  let p := match body.brand with | some v => { p with brand := v } | none => p
  let p := match body.level_0 with
    | some v => { p with level_0 := v }
    | none => p
  let p := match body.level_1 with
    | some v => { p with level_1 := some v }
    | none => p
  let p := match body.level_2 with
    | some v => { p with level_2 := some v }
    | none => p
  let p := match body.is_available with
    | some v => { p with is_available := v }
    | none => p
  match body.stock with | some v => { p with stock := v } | none => p

/-- The image upsert step of `PUT /products/{product_id}`
(api.py 2494-2512): when the body carries `img_list` and the (updated)
row's `level_2` and derived color are truthy, update or insert the
`(level_2, color)` image row.  Reading the derived color can raise.
Only string-valued derived colors are modelled as matching the string
column (driver-level coercion of non-string parameters is outside the
embedding; no claim depends on it). -/
def updateImgStep (s : DBState) (body : UpdateBody) (product1 : Product) :
    Except PyErr (List ProductImage) :=
  match body.img_list with
  | none => .ok s.images
  | some payload =>
    match product1.level_2 with
    | some l2 =>
      if l2 ≠ "" then
        match product1.color with
        | .error e => .error e
        | .ok colorv =>
          if jsonTruthy colorv then
            match colorv with
            | .str c =>
              if s.images.any (fun pi =>
                  pi.level_2 == l2 && pi.color == c) then
                .ok (updFirst
                  (fun pi => pi.level_2 == l2 && pi.color == c)
                  (fun pi => { pi with img_list := payload }) s.images)
              else
                .ok (s.images ++
                  [{ id := nextId (s.images.map (fun i => i.id)),
                     level_2 := l2, color := c, img_list := payload }])
            | _ => .ok s.images
          else .ok s.images
      else .ok s.images
    | none => .ok s.images

/-- `PUT /products/{product_id}` (api.py 2460-2548).  A body containing
`color`, `disk` or `sim_config` assigns to a read-only `@property` of
`Product` (models.py 35-66 define no setters), raising `AttributeError`;
the generic handler (api.py 2546-2548) rolls the session back and turns
it into an internal error, so nothing persists.  Otherwise the present
fields are applied, an `img_list` payload upserts the `(level_2, color)`
image row when both are known, and a `price` field upserts the price
store preserving the prior `is_parse` flag. -/
def updateProduct (s : DBState) (pid : Nat) (body : UpdateBody) :
    DBState × UpdateResult :=
  match s.products.find? (fun p => p.id == pid) with
  | none => (s, .notFound)
  | some product =>
    if body.color.isSome || body.disk.isSome || body.sim_config.isSome then
      (s, .serverError)
    else
      let product1 := applyUpdateFields body product
      match updateImgStep s body product1 with
      | .error _ => (s, .serverError)
      | .ok images1 =>
        let prices1 :=
          match body.price with
          | some pr =>
            let ip :=
              match get_price s.prices product.sku with
              | some ex => ex.is_parse
              | none => true
            set_price s.prices product.sku pr (body.old_price.getD pr)
              (body.currency.getD "RUB") ip
          | none => s.prices
        let products1 := updFirst (fun p => p.id == pid)
          (fun _ => product1) s.products
        ({ s with products := products1, images := images1,
                  prices := prices1 }, .ok product1.id product1.sku)

/-- Result of the two delete endpoints. -/
inductive DeleteResult where
  | ok (deletedId : Nat) (deletedSku : String)
  | notFound

/-- `DELETE /products/{product_id}` (api.py 2550-2582): 404 when the id
is unknown, otherwise remove the price-store entry for the product's SKU
and then the row itself. -/
def deleteProduct (s : DBState) (pid : Nat) : DBState × DeleteResult :=
  match s.products.find? (fun p => p.id == pid) with
  | none => (s, .notFound)
  | some product =>
    ({ s with prices := delete_price s.prices product.sku,
              products := s.products.eraseP (fun p => p.id == pid) },
     .ok product.id product.sku)

/-- `DELETE /products/by-sku/{sku}` (api.py 2584-2616): same as deletion
by id, resolving the row by SKU. -/
def deleteProductBySku (s : DBState) (sku : String) :
    DBState × DeleteResult :=
  match s.products.find? (fun p => p.sku == sku) with
  | none => (s, .notFound)
  | some product =>
    ({ s with prices := delete_price s.prices sku,
              products := s.products.eraseP (fun p => p.sku == sku) },
     .ok product.id sku)

/-- One normalized record of the products sheet, as handed to the import
loops by `parse_products_excel` (the spreadsheet layer itself is not
among the shown sources; spec §4.5 fixes the record's fields).  The
`level_2` field models the `'level_2'` key probed at api.py 1129/1229
(the parse layer emits `'level2'`). -/
structure ExcelRow where
  sku : Option String := none
  name : String := ""
  level0 : Option String := none
  level1 : Option String := none
  level2 : Option String := none
  brand : Option String := none
  price : Rat := 0
  old_price : Option Rat := none
  currency : Option String := none
  stock : Int := 0
  specifications : Option Json := none
  color : Option String := none
  ram : Option String := none
  disk : Option String := none
  sim_config : Option String := none
  image_url : Option String := none
  is_parse : Option Bool := none
  level_2 : Option String := none

/-- Per-row outcome of the spreadsheet import loops. -/
inductive RowResult where
  | added
  | updated
  | rowError

/-- One row of the insert-only product import
(`POST /api/excel/import/products`, loop body api.py 924-1003):
`level0`, `brand` and `level2` must be truthy; an explicitly given SKU
that already exists is a per-row error; a generated SKU that collides is
rejected by the `sku` column's unique constraint at flush (models.py 20)
and likewise recorded as a row error; otherwise the product is inserted
with its categories, initial price and optional image row. -/
def excelImportRow (s : DBState) (ts : Nat) (row : ExcelRow) :
    DBState × RowResult :=
  if !optStrTruthy row.level0 then (s, .rowError)
  else if !(optStrTruthy row.brand && optStrTruthy row.level2) then
    (s, .rowError)
  else
    let sku :=
      if optStrTruthy row.sku then row.sku.getD ""
      else
        pyUpper (strTake (row.brand.getD "") 3) ++
          pyUpper (strTake (row.level2.getD "") 5) ++ toString (ts % 100000)
    if s.products.any (fun p => p.sku == sku) then (s, .rowError)
    else
      match dictOfBodyVal row.specifications with
      | .error _ => (s, .rowError)
      | .ok specs0 =>
        let specs := foldSpecKeys specs0
          [("color", row.color), ("ram", row.ram), ("disk", row.disk),
           ("sim_config", row.sim_config)]
        let parsed := parse_images_from_string (row.image_url.getD "")
        let product : Product :=
          { id := nextId (s.products.map (fun p => p.id)), sku := sku,
            name := row.name, level_0 := row.level0.getD "",
            level_1 := row.level1, level_2 := row.level2,
            brand := row.brand.getD "",
            specifications := some (.ok (.obj specs)),
            stock := row.stock, is_available := true }
        let cats := ensureCategoryExists s.categories row.level0 row.level1
          row.level2
        let prices := set_price s.prices sku row.price row.price
          (row.currency.getD "RUB") (row.is_parse.getD true)
        let images :=
          if !parsed.isEmpty && optStrTruthy row.level2 &&
             optStrTruthy row.color then
            s.images ++
              [{ id := nextId (s.images.map (fun i => i.id)),
                 level_2 := row.level2.getD "", color := row.color.getD "",
                 img_list := .plain (.arr (parsed.map Json.str)) }]
          else s.images
        ({ s with products := s.products ++ [product], categories := cats,
                  prices := prices, images := images }, .added)

/-- One row of the update-or-create import
(`POST /api/excel/update-or-create/products`, loop body
api.py 1122-1240).  The SKU is the given one or generated from the
`'brand'`/`'level_2'` keys and the timestamp; an existing SKU is updated
in place (its `sku` column is never reassigned), a fresh one inserted.
A row whose existing specifications parse to a non-object while a
variant key must be merged raises `TypeError` after the scalar columns
were already assigned; the per-row handler records the error but the
assignments stay in the session and are committed (api.py 1239-1242).
`upsertSku` is the SKU the row resolves to (api.py 1124-1130). -/
def upsertSku (ts : Nat) (row : ExcelRow) : String :=
  if optStrTruthy row.sku then row.sku.getD ""
  else
    pyUpper (strTake (row.brand.getD "UNK") 3) ++
      pyUpper (strTake (row.level_2.getD "UNK") 5) ++
        toString (ts % 100000)

/-- The image upsert step of the update-or-create update branch
(api.py 1157-1176); same modelling remarks as for `updateImgStep`. -/
def upsertImgStep (s : DBState) (row : ExcelRow) (updated : Product) :
    Except PyErr (List ProductImage) :=
  if optStrTruthy row.image_url then
    match updated.level_2 with
    | some l2 =>
      if l2 ≠ "" then
        match updated.color with
        | .error e => .error e
        | .ok colorv =>
          if jsonTruthy colorv then
            match colorv with
            | .str c =>
              let parsed := parse_images_from_string
                (row.image_url.getD "")
              let payload : ImgListDoc :=
                .plain (.arr (parsed.map Json.str))
              if s.images.any (fun pi =>
                  pi.level_2 == l2 && pi.color == c) then
                .ok (updFirst
                  (fun pi => pi.level_2 == l2 && pi.color == c)
                  (fun pi => { pi with img_list := payload })
                  s.images)
              else
                .ok (s.images ++
                  [{ id := nextId (s.images.map (fun i => i.id)),
                     level_2 := l2, color := c,
                     img_list := payload }])
            | _ => .ok s.images
          else .ok s.images
      else .ok s.images
    | none => .ok s.images
  else .ok s.images

/-- Body of the update-or-create row handler, continued. -/
def excelUpsertRow (s : DBState) (ts : Nat) (row : ExcelRow) :
    DBState × RowResult :=
  let sku := upsertSku ts row
  match s.products.find? (fun p => p.sku == sku) with
  | some existing =>
    match row.level0 with
    | none =>
      -- `product_data['level0']` raises `KeyError` right after the name
      -- assignment (api.py 1137-1139); the name change stays and commits.
      let products1 := updFirst (fun p => p.sku == sku)
        (fun p => { p with name := row.name }) s.products
      ({ s with products := products1 }, .rowError)
    | some l0 =>
      let upd1 := fun p : Product =>
        { p with name := row.name, level_0 := l0,
                 level_1 := some (row.level1.getD ""),
                 level_2 := some (row.level2.getD ""),
                 brand := row.brand.getD "", stock := row.stock }
      let cats := ensureCategoryExists s.categories row.level0 row.level1
        row.level2
      let specsParsed : Json :=
        match existing.specifications with
        | some (.ok j) => j
        | _ => .obj []
      let keyvals := [("color", row.color), ("disk", row.disk),
        ("ram", row.ram), ("sim_config", row.sim_config)]
      let anyKey := keyvals.any (fun kv => optStrTruthy kv.2)
      match specsParsed with
      | .obj kvs =>
        let newSpecs := foldSpecKeys kvs keyvals
        let upd2 := fun p : Product =>
          { upd1 p with specifications := some (.ok (.obj newSpecs)) }
        let updated := upd2 existing
        let products1 := updFirst (fun p => p.sku == sku) upd2 s.products
        match upsertImgStep s row updated with
        | .error _ =>
          ({ s with products := products1, categories := cats }, .rowError)
        | .ok images1 =>
          let ip :=
            match get_price s.prices sku with
            | some ex => ex.is_parse
            | none => true
          let prices1 := set_price s.prices sku row.price
            (row.old_price.getD row.price) (row.currency.getD "RUB") ip
          ({ s with products := products1, categories := cats,
                    images := images1, prices := prices1 }, .updated)
      | _ =>
        if anyKey then
          -- `existing_specs[key] = v` on a non-dict raises `TypeError`
          -- (api.py 1152-1154) after the scalar assignments.
          let products1 := updFirst (fun p => p.sku == sku) upd1 s.products
          ({ s with products := products1, categories := cats }, .rowError)
        else
          -- no key to merge: the non-object value is re-serialized
          let upd2 := fun p : Product =>
            { upd1 p with specifications := some (.ok specsParsed) }
          let products1 := updFirst (fun p => p.sku == sku) upd2 s.products
          let ip :=
            match get_price s.prices sku with
            | some ex => ex.is_parse
            | none => true
          let prices1 := set_price s.prices sku row.price
            (row.old_price.getD row.price) (row.currency.getD "RUB") ip
          ({ s with products := products1, categories := cats,
                    prices := prices1 }, .updated)
  | none =>
    match row.level0 with
    | none => (s, .rowError)
    | some l0 =>
      match dictOfBodyVal row.specifications with
      | .error _ => (s, .rowError)
      | .ok specs0 =>
        let specs := foldSpecKeys specs0
          [("color", row.color), ("ram", row.ram), ("disk", row.disk),
           ("sim_config", row.sim_config)]
        let parsed := parse_images_from_string (row.image_url.getD "")
        let product : Product :=
          { id := nextId (s.products.map (fun p => p.id)), sku := sku,
            name := row.name, level_0 := l0,
            level_1 := some (row.level1.getD ""),
            level_2 := some (row.level2.getD ""),
            brand := row.brand.getD "",
            specifications := some (.ok (.obj specs)),
            stock := row.stock, is_available := true }
        let cats := ensureCategoryExists s.categories row.level0 row.level1
          row.level2
        let prices := set_price s.prices sku row.price
          (row.old_price.getD row.price) (row.currency.getD "RUB")
          (row.is_parse.getD true)
        let images :=
          if !parsed.isEmpty && optStrTruthy row.level_2 &&
             optStrTruthy row.color then
            s.images ++
              [{ id := nextId (s.images.map (fun i => i.id)),
                 level_2 := row.level_2.getD "", color := row.color.getD "",
                 img_list := .plain (.arr (parsed.map Json.str)) }]
          else s.images
        ({ s with products := s.products ++ [product], categories := cats,
                  prices := prices, images := images }, .added)

/-! ## Admin cookie authentication (api.py 104-116, 862-867) -/

/-- The fixed session-token string (api.py 107). -/
def ADMIN_SESSION_TOKEN : String := "yo_admin_session_token_v1"

/-- `is_admin_authenticated(request)` (api.py 109-111): the
`admin_session` cookie must equal the fixed token. -/
def is_admin_authenticated (cookies : List (String × String)) : Bool :=
  cookies.lookup "admin_session" == some ADMIN_SESSION_TOKEN

/-- Outcome of `GET /admin`. -/
inductive AdminPageResult where
  | page
  | redirectToLogin

/-- `GET /admin` (api.py 862-867): redirect to the login page when the
cookie check fails, else serve the admin page. -/
def adminPage (cookies : List (String × String)) : AdminPageResult :=
  if is_admin_authenticated cookies then .page else .redirectToLogin

/-- `DELETE /products/{product_id}` as routed: the function signature at
api.py 2550-2551 declares no authentication dependency (`require_admin`,
defined at api.py 113-116, is referenced by no route), so the handler
runs regardless of the request's cookies. -/
def deleteProductRoute (_cookies : List (String × String)) (s : DBState)
    (pid : Nat) : DBState × DeleteResult :=
  deleteProduct s pid

/-- `PUT /products/{product_id}` as routed: no authentication dependency
(api.py 2460-2461). -/
def updateProductRoute (_cookies : List (String × String)) (s : DBState)
    (pid : Nat) (body : UpdateBody) : DBState × UpdateResult :=
  updateProduct s pid body

/-- `POST /import-single-product` as routed: no authentication
dependency (api.py 2110-2111). -/
def importSingleProductRoute (_cookies : List (String × String))
    (s : DBState) (ts : Nat) (body : CreateBody) : DBState × CreateResult :=
  importSingleProduct s ts body

/-! ## Category-icon seeding scripts (add_headphones_category.py,
add_smart_watches_category.py, add_stylers_category.py,
add_tablets_category.py) -/

/-- The lookup filter shared by all four scripts: the `Category` row with
the target `level_0` and NULL `level_1`/`level_2`. -/
def isTopCategory (t : String) (c : CategoryRow) : Bool :=
  c.level_0 == t && c.level_1 == none && c.level_2 == none

/-- The in-place update all four scripts apply to a found row: set the
icon, fill the description only when the current one is falsy. -/
def seedUpd (icon desc : String) (c : CategoryRow) : CategoryRow :=
  { c with icon := some icon,
           description :=
             if optStrTruthy c.description then c.description
             else some desc }

/-- The fresh row a script inserts when no target row exists. -/
def newSeedRow (target icon desc : String) (db : List CategoryRow) :
    CategoryRow :=
  { id := nextId (db.map (fun c => c.id)), level_0 := target,
    level_1 := none, level_2 := none, description := some desc,
    icon := some icon }

/-- The three generic scripts' body (e.g. add_headphones_category.py
24-49): update the found row's icon, fill the description only when
falsy; insert a fresh row otherwise. -/
def runGenericSeed (target icon desc : String) (db : List CategoryRow) :
    List CategoryRow :=
  if db.any (isTopCategory target) then
    updFirst (isTopCategory target) (seedUpd icon desc) db
  else
    db ++ [newSeedRow target icon desc db]

/-- The stylers icon URL (add_stylers_category.py 22). -/
def stylersIcon : String := "https://appletrade.ru/img/43748831_1920_q70.webp"

/-- The stylers default description (add_stylers_category.py 49). -/
def stylersDescription : String := "Фены и стайлеры для волос"

/-- The legacy-row rename of the stylers script
(add_stylers_category.py 46-55). -/
def stylersRename (c : CategoryRow) : CategoryRow :=
  { c with level_0 := "Фены и стайлеры", icon := some stylersIcon,
           description :=
             if optStrTruthy c.description then c.description
             else some stylersDescription }

/-- The stylers script body (add_stylers_category.py 24-71): rename a
legacy `Фены/стайлеры` or `Стайлеры` row into `Фены и стайлеры` when the
current name is absent, otherwise update or insert like the generic
scripts. -/
def runStylersSeed (db : List CategoryRow) : List CategoryRow :=
  let oldStylers := db.any (isTopCategory "Стайлеры")
  let oldSlash := db.any (isTopCategory "Фены/стайлеры")
  let existing := db.any (isTopCategory "Фены и стайлеры")
  if oldSlash && !existing then
    updFirst (isTopCategory "Фены/стайлеры") stylersRename db
  else if oldStylers && !existing then
    updFirst (isTopCategory "Стайлеры") stylersRename db
  else runGenericSeed "Фены и стайлеры" stylersIcon stylersDescription db

/-- The four category-icon seeding scripts. -/
inductive SeedScript where
  | headphones
  | smartWatches
  | stylers
  | tablets

/-- The target `level_0` of each script. -/
def seedTarget : SeedScript → String
  | .headphones => "Наушники"
  | .smartWatches => "Умные часы"
  | .stylers => "Фены и стайлеры"
  | .tablets => "Планшеты"

/-- The icon URL each script writes. -/
def seedIcon : SeedScript → String
  | .headphones => "https://appletrade.ru/img/47684839_1920_q70.webp"
  | .smartWatches => "https://appletrade.ru/img/48064627_1920_q70.webp"
  | .stylers => "https://appletrade.ru/img/43748831_1920_q70.webp"
  | .tablets => "https://static.re-store.ru/upload/resize_cache/iblock/bb5/100500_800_140cd750bba9870f18aada2478b24840a/bmyghidv162rz0n4laktfid53b2w0qtf.jpg"

/-- The default description each script fills in. -/
def seedDescription : SeedScript → String
  | .headphones => "Наушники и аудиоаксессуары"
  | .smartWatches => "Умные часы и смарт-часы"
  | .stylers => "Фены и стайлеры для волос"
  | .tablets => "Планшетные компьютеры"

/-- Run one seeding script against the `categories` table. -/
def runSeedScript : SeedScript → List CategoryRow → List CategoryRow
  | .stylers, db => runStylersSeed db
  | sc, db => runGenericSeed (seedTarget sc) (seedIcon sc)
      (seedDescription sc) db

/-- Number of rows matching the script's target top-level category. -/
def targetCount (t : String) (db : List CategoryRow) : Nat :=
  (db.filter (isTopCategory t)).length

/-- The first row matching the target top-level category. -/
def findTarget (t : String) (db : List CategoryRow) : Option CategoryRow :=
  db.find? (isTopCategory t)

/-! ## The embedded API operations as one step relation -/

/-- The embedded state-changing (or state-reading) API operations. -/
inductive ApiOp where
  | importSingle (ts : Nat) (body : CreateBody)
  | updateById (pid : Nat) (body : UpdateBody)
  | deleteById (pid : Nat)
  | deleteBySku (sku : String)
  | excelImport (ts : Nat) (row : ExcelRow)
  | excelUpsert (ts : Nat) (row : ExcelRow)
  | orderCreate (nowStr : String) (body : OrderCreate)
  | promoCheck (now : Nat) (req : PromoReq)

/-- The state reached after one embedded API operation. -/
def applyOp (s : DBState) : ApiOp → DBState
  | .importSingle ts b => (importSingleProduct s ts b).1
  | .updateById pid b => (updateProduct s pid b).1
  | .deleteById pid => (deleteProduct s pid).1
  | .deleteBySku k => (deleteProductBySku s k).1
  | .excelImport ts r => (excelImportRow s ts r).1
  | .excelUpsert ts r => (excelUpsertRow s ts r).1
  | .orderCreate n b => (createOrder s n b).1
  | .promoCheck now req => (runCheckPromo s now req).1

/-- Whether an operation is `POST /orders`. -/
def ApiOp.isOrderCreate : ApiOp → Bool
  | .orderCreate _ _ => true
  | _ => false

/-! ## Predicates used by the claim statements -/

/-- The SKU column of every product row. -/
def skus (s : DBState) : List String :=
  s.products.map (fun p => p.sku)

/-- The id column of every product row. -/
def productIds (s : DBState) : List Nat :=
  s.products.map (fun p => p.id)

/-- The `(code, used_count)` view of the promo-code table. -/
def promoUsage (s : DBState) : List (String × Nat) :=
  s.promo_codes.map (fun pc => (pc.code, pc.used_count))

/-- Claim C2 as stated, at one state and query: every returned card's id
is minimal among **all** product rows sharing the card's
`(level_2, brand)` pair. -/
def repIsGlobalMinAt (s : DBState) (q : ProductsQuery) : Prop :=
  ∀ c ∈ exceptD (getProducts s q) [], ∀ r ∈ s.products,
    r.level_2 = c.level_2 ∧ r.brand = c.brand → c.id ≤ r.id

/-- The card-level old price derived from the best variant's record
(api.py 397-404): the recorded old price unless it is absent or zero, in
which case the minimum price itself. -/
def oldPriceFallback (b : PriceRec) : Rat :=
  match b.old_price with
  | some v => if v ≠ 0 then v else b.price
  | none => b.price

/-- Sanity of a promo code's `free_item_condition` document: absent,
unparsable, or parsing to an object.  (A document parsing to a non-object
makes the handler raise, api.py 2766.) -/
def condDocSane (pc : PromoCode) : Prop :=
  pc.free_item_condition = none ∨
  (∃ e, pc.free_item_condition = some (.error e)) ∨
  (∃ kvs, pc.free_item_condition = some (.ok (.obj kvs)))

/-- Whether one cart line's product exists and its SKU contains `f`
case-insensitively (the loop condition at api.py 2791-2796). -/
def lineMatchesFreeItem (s : DBState) (f : String)
    (item : OrderItemCreate) : Bool :=
  match s.products.find? (fun p => p.id == item.product_id) with
  | some p => p.sku ≠ "" && substrCI f p.sku
  | none => false

/-- Whether one of the four early gates of the promo check rejects
(api.py 2719-2745): validity window, usage limit, minimum order
amount. -/
def promoRejectedEarly (now : Nat) (cartTotal : Rat) (pc : PromoCode) :
    Bool :=
  validFromRejects now pc || validUntilRejects now pc ||
    usageLimitRejects pc || minAmountRejects cartTotal pc

/-- Whether the `free_item` category gate passes (api.py 2763-2783). -/
def categoryGatePasses (s : DBState) (pc : PromoCode)
    (items : List OrderItemCreate) : Bool :=
  match pc.free_item_condition with
  | some (.ok (.obj kvs)) => hasCategoryItem s (conditionCategory kvs) items
  | _ => true

/-! ## Concrete fixtures used by the witness and counterexample
theorems -/

/-- A product whose `specifications` column holds valid JSON that is not
an object (the text `"[]"`). -/
def exProductBadSpecs : Product :=
  { id := 9, sku := "SKU9", name := "P9", brand := "Br",
    level_0 := "Смартфоны", level_1 := none, level_2 := some "M9",
    specifications := some (.ok (.arr [])), stock := 0,
    is_available := true }

/-- A plain catalog product. -/
def exProduct1 : Product :=
  { id := 1, sku := "SKU1", name := "Phone X", brand := "Br",
    level_0 := "Смартфоны", level_1 := some "XS",
    level_2 := some "Model X",
    specifications := some (.ok (.obj [("color", .str "Black")])),
    stock := 3, is_available := true }

/-- A one-product state with a priced SKU. -/
def exState1 : DBState :=
  { products := [exProduct1], categories := [], images := [],
    level2descs := [], promo_codes := [], orders := [], order_items := [],
    prices := [("SKU1",
      { price := 100, old_price := some 120, currency := "RUB",
        discount_percentage := calcDiscount 100 120, is_parse := true })] }

/-- Variant 1 of model `M`: id 1, `level_1 = "L1"`, priced 100/150. -/
def exProdM1 : Product :=
  { id := 1, sku := "A1", name := "M L1", brand := "B",
    level_0 := "Cat", level_1 := some "L1", level_2 := some "M",
    specifications := none, stock := 0, is_available := true }

/-- Variant 2 of model `M`: id 2, `level_1 = "L2"`, priced 120. -/
def exProdM2 : Product :=
  { id := 2, sku := "A2", name := "M L2", brand := "B",
    level_0 := "Cat", level_1 := some "L2", level_2 := some "M",
    specifications := none, stock := 0, is_available := true }

/-- Two variants of one `(level_2, brand)` model with different
`level_1` values, both priced. -/
def exStateC2 : DBState :=
  { products := [exProdM1, exProdM2], categories := [], images := [],
    level2descs := [], promo_codes := [], orders := [], order_items := [],
    prices :=
      [("A1",
        { price := 100, old_price := some 150, currency := "RUB",
          discount_percentage := calcDiscount 100 150, is_parse := true }),
       ("A2",
        { price := 120, old_price := some 140, currency := "RUB",
          discount_percentage := calcDiscount 120 140, is_parse := true })] }

/-- A `/products` request filtering on `level1 = "L2"`. -/
def exQueryC2 : ProductsQuery :=
  { brand := none, level0 := none, level1 := some "L2", level2 := none,
    limit := 20, offset := 0 }

/-- The cards `/products` returns for `exStateC2` / `exQueryC2`. -/
def cardsC2 : List Card :=
  exceptD (getProducts exStateC2 exQueryC2) []

/-- An unfiltered `/products` request. -/
def exQueryAll : ProductsQuery :=
  { brand := none, level0 := none, level1 := none, level2 := none,
    limit := 20, offset := 0 }

/-- A product whose SKU contains `adapter`. -/
def exProdAdapter : Product :=
  { id := 5, sku := "X-Adapter-1", name := "Adapter", brand := "Br",
    level_0 := "Аксессуары", level_1 := none, level_2 := some "Adp",
    specifications := none, stock := 1, is_available := true }

/-- An active `free_item` promo code with `free_item_sku = "ADAPT"`. -/
def exPromoC3 : PromoCode :=
  { id := 1, code := "FREEADAPT", discount_type := "free_item",
    discount_value := none, min_order_amount := none,
    free_item_sku := some "ADAPT", free_item_condition := none,
    is_active := true, usage_limit := none, used_count := 0,
    valid_from := none, valid_until := none, description := none }

/-- State with the adapter product (priced 990) and the promo code. -/
def exStateC3 : DBState :=
  { products := [exProdAdapter], categories := [], images := [],
    level2descs := [], promo_codes := [exPromoC3], orders := [],
    order_items := [],
    prices := [("X-Adapter-1",
      { price := 990, old_price := some 990, currency := "RUB",
        discount_percentage := 0, is_parse := true })] }

/-- Cart containing the adapter line. -/
def exReqC3 : PromoReq :=
  { code := "freeadapt", cart_total := 5000,
    items := [{ product_id := 5, name := "Adapter", price := 990,
                quantity := 1 }] }

/-- Cart without any matching line. -/
def exReqC3empty : PromoReq :=
  { code := "freeadapt", cart_total := 5000, items := [] }

/-- A product with its own specifications `{"a": "1"}` for model `M6`. -/
def exProdC6 : Product :=
  { id := 1, sku := "S6", name := "P6", brand := "B", level_0 := "Cat",
    level_1 := none, level_2 := some "M6",
    specifications := some (.ok (.obj [("a", .str "1")])), stock := 0,
    is_available := true }

/-- A `Level2Description` for `M6` whose details add a `cpu` key. -/
def exDescC6 : Level2Description :=
  { id := 1, level_2 := "M6", description := "D",
    details := some (.ok (.obj [("cpu", .str "M1")])) }

/-- State for the specifications-merge check. -/
def exStateC6 : DBState :=
  { products := [exProdC6], categories := [], images := [],
    level2descs := [exDescC6], promo_codes := [], orders := [],
    order_items := [],
    prices := [("S6",
      { price := 10, old_price := some 15, currency := "RUB",
        discount_percentage := calcDiscount 10 15, is_parse := true })] }

end YoStore

namespace YoStore

/-! ## Claim theorems -/

/-- C1.  The claim is violated by the code: `require_admin` (api.py
113-116) is attached to no route, so the admin-gated API endpoints run
without any cookie check.  With no cookies at all, `is_admin_authenticated`
is false and `GET /admin` redirects to the login page, yet
`DELETE /products/1` deletes the product and responds with success
instead of an unauthorized error (similarly the update and
single-product-create routes execute their handlers). -/
theorem C1_admin_routes_unprotected :
    is_admin_authenticated [] = false ∧
    adminPage [] = .redirectToLogin ∧
    (deleteProductRoute [] exState1 1).2 = .ok 1 "SKU1" ∧
    (deleteProductRoute [] exState1 1).1.products = [] ∧
    (updateProductRoute [] exState1 1 { name := some "N2" }).2 =
      .ok 1 "SKU1" ∧
    (importSingleProductRoute [] exState1 77
      { name := some "New", brand := some "Br", model := some "M" }).2 =
      .ok 2 "BR77" :=
  ⟨rfl, rfl, rfl, rfl, rfl, rfl⟩

/-- C4.  The claim fails on the code: when `specifications` parses to
valid JSON that is not an object (here the text `"[]"`), the derived
properties call `.get` on a non-dict and raise `AttributeError`, which
the `except (json.JSONDecodeError, TypeError)` clauses of models.py
35-66 do not catch.  The alias `memory = disk` does hold for every
product. -/
theorem C4_derived_attrs_raise_on_nonobject_specs :
    exProductBadSpecs.color = .error .attributeError ∧
    exProductBadSpecs.disk = .error .attributeError ∧
    exProductBadSpecs.sim_config = .error .attributeError ∧
    (∀ p : Product, p.memory = p.disk) :=
  ⟨rfl, rfl, rfl, fun _ => rfl⟩

/-- C5.  The claim fails on the code: a `PUT /products/{id}` body
containing the recognized field `color` (likewise `disk` / `sim_config`)
assigns to a read-only `@property` of `Product`, raising
`AttributeError`; the handler's generic `except` rolls back and returns
an internal error, so the update neither succeeds nor applies anything.
Bodies without those three fields do succeed and apply the present
fields. -/
theorem C5_update_crashes_on_property_fields :
    updateProduct exState1 1 { color := some "Red" } =
      (exState1, .serverError) ∧
    updateProduct exState1 1 { disk := some "256GB" } =
      (exState1, .serverError) ∧
    updateProduct exState1 1 { sim_config := some "eSIM" } =
      (exState1, .serverError) ∧
    ((updateProduct exState1 1 { name := some "N2" }).1.products.map
      (fun p => p.name)) = ["N2"] :=
  ⟨rfl, rfl, rfl, rfl⟩

/-- C6.  The claim fails on the code: in the card loop of both
`GET /products` and `GET /search` the merged map
`{**level2_specs, **specifications}` is computed into
`all_specifications` (api.py 437 / 771) but the response is built from
the plain `specifications` variable (api.py 459 / 793), so the returned
`specifications` lack the `Level2Description.details` keys.  (The
by-id detail endpoint, api.py 653, does return the merged map.)  Here
the details contribute `cpu`, the merge would contain it, yet neither
endpoint's response does. -/
theorem C6_response_specs_not_merged :
    (getProducts exStateC6 exQueryAll).map
        (fun cs => cs.map (fun c => c.specifications)) =
      .ok [Json.obj [("a", .str "1")]] ∧
    (searchProducts exStateC6 "P6" 20).map
        (fun cs => cs.map (fun c => c.specifications)) =
      .ok [Json.obj [("a", .str "1")]] ∧
    splatMerge (Json.obj [("cpu", .str "M1")])
        (Json.obj [("a", .str "1")]) =
      .ok [("cpu", .str "M1"), ("a", .str "1")] ∧
    descAndDetails exStateC6 exProdC6 =
      ("D", Json.obj [("cpu", .str "M1")]) :=
  ⟨rfl, rfl, rfl, rfl⟩

/-! ## Helper lemmas for the model-card listing -/

/-- Extract the per-product card equation from a successful card loop. -/
theorem mapCards_ok_mem (s : DBState) :
    ∀ (xs : List Product) (ys : List Card), mapCards s xs = Except.ok ys →
      ∀ y ∈ ys, ∃ x ∈ xs, buildCard s x = Except.ok y := by
  intro xs
  induction xs with
  | nil =>
    intro ys h y hy
    unfold mapCards at h
    cases h
    simp at hy
  | cons a t ih =>
    intro ys h y hy
    unfold mapCards at h
    cases hfa : buildCard s a with
    | error e => rw [hfa] at h; simp [bind, Except.bind] at h
    | ok b =>
      rw [hfa] at h
      cases hft : mapCards s t with
      | error e => rw [hft] at h; simp [bind, Except.bind] at h
      | ok bs =>
        rw [hft] at h
        simp only [bind, Except.bind, Except.ok.injEq] at h
        subst h
        rcases List.mem_cons.mp hy with hy | hy
        · exact ⟨a, List.mem_cons_self a t, hy ▸ hfa⟩
        · obtain ⟨x, hx, hfx⟩ := ih bs hft y hy
          exact ⟨x, List.mem_cons_of_mem a hx, hfx⟩

/-- `natMin?` returns `none` only on the empty list. -/
theorem natMin?_none : ∀ l : List Nat, natMin? l = none → l = [] := by
  intro l h
  cases l with
  | nil => rfl
  | cons n ns =>
    unfold natMin? at h
    cases hns : natMin? ns <;> rw [hns] at h <;> simp at h

/-- `natMin?` returns a member that bounds the list from below. -/
theorem natMin?_spec : ∀ (l : List Nat) (m : Nat), natMin? l = some m →
    m ∈ l ∧ ∀ x ∈ l, m ≤ x := by
  intro l
  induction l with
  | nil => intro m h; cases h
  | cons n ns ih =>
    intro m h
    unfold natMin? at h
    cases hns : natMin? ns with
    | none =>
      rw [hns] at h
      cases h
      have hne := natMin?_none ns hns
      subst hne
      refine ⟨List.mem_cons_self _ _, ?_⟩
      intro x hx
      rcases List.mem_cons.mp hx with h | h
      · exact h ▸ le_refl _
      · simp at h
    | some m' =>
      rw [hns] at h
      cases h
      obtain ⟨hm', hb⟩ := ih m' hns
      by_cases hle : n ≤ m'
      · rw [if_pos hle]
        refine ⟨List.mem_cons_self _ _, ?_⟩
        intro x hx
        rcases List.mem_cons.mp hx with hx | hx
        · exact hx ▸ le_refl _
        · exact le_trans hle (hb x hx)
      · rw [if_neg hle]
        refine ⟨List.mem_cons_of_mem _ hm', ?_⟩
        intro x hx
        rcases List.mem_cons.mp hx with hx | hx
        · exact hx ▸ le_of_not_le hle
        · exact hb x hx

/-- The minimum-price scan, started from a first record, ends in the
record of a minimum-priced variant. -/
theorem scan_go (s : DBState) : ∀ (l : List Product) (b0 : PriceRec),
    ∃ b, (b = b0 ∨ b ∈ l.filterMap (fun r => get_price s.prices r.sku)) ∧
      b.price ≤ b0.price ∧
      (∀ x ∈ l.filterMap (fun r => get_price s.prices r.sku),
        b.price ≤ x.price) ∧
      l.foldl (scanStep s) (some b0.price, some b0, b0.currency) =
        (some b.price, some b, b.currency) := by
  intro l
  induction l with
  | nil =>
    intro b0
    exact ⟨b0, Or.inl rfl, le_refl _, by simp, rfl⟩
  | cons r t ih =>
    intro b0
    cases hg : get_price s.prices r.sku with
    | none =>
      obtain ⟨b, hb, hle, hbd, hf⟩ := ih b0
      refine ⟨b, ?_, hle, ?_, ?_⟩
      · simpa [List.filterMap_cons, hg] using hb
      · simpa [List.filterMap_cons, hg] using hbd
      · rw [List.foldl_cons]
        have hstep : scanStep s (some b0.price, some b0, b0.currency) r =
            (some b0.price, some b0, b0.currency) := by
          unfold scanStep
          rw [hg]
        rw [hstep]
        exact hf
    | some vp =>
      by_cases hlt : vp.price < b0.price
      · obtain ⟨b, hb, hle, hbd, hf⟩ := ih vp
        refine ⟨b, ?_, ?_, ?_, ?_⟩
        · right
          rw [List.filterMap_cons, hg]
          rcases hb with hb | hb
          · exact hb ▸ List.mem_cons_self _ _
          · exact List.mem_cons_of_mem _ hb
        · exact le_trans hle (le_of_lt hlt)
        · intro x hx
          rw [List.filterMap_cons, hg] at hx
          rcases List.mem_cons.mp hx with hx | hx
          · exact hx ▸ hle
          · exact hbd x hx
        · rw [List.foldl_cons]
          have hstep : scanStep s (some b0.price, some b0, b0.currency) r =
              (some vp.price, some vp, vp.currency) := by
            unfold scanStep
            rw [hg]
            simp [hlt]
          rw [hstep]
          exact hf
      · obtain ⟨b, hb, hle, hbd, hf⟩ := ih b0
        refine ⟨b, ?_, hle, ?_, ?_⟩
        · rcases hb with hb | hb
          · exact Or.inl hb
          · right
            rw [List.filterMap_cons, hg]
            exact List.mem_cons_of_mem _ hb
        · intro x hx
          rw [List.filterMap_cons, hg] at hx
          rcases List.mem_cons.mp hx with hx | hx
          · exact hx ▸ le_trans hle (le_of_not_lt hlt)
          · exact hbd x hx
        · rw [List.foldl_cons]
          have hstep : scanStep s (some b0.price, some b0, b0.currency) r =
              (some b0.price, some b0, b0.currency) := by
            unfold scanStep
            rw [hg]
            simp [hlt]
          rw [hstep]
          exact hf

/-- The scan over a variant list either sees no price record at all or
ends in the record of a minimum-priced variant. -/
theorem scan_spec (s : DBState) : ∀ (l : List Product),
    (l.filterMap (fun r => get_price s.prices r.sku) = [] ∧
      l.foldl (scanStep s) (none, none, "RUB") = (none, none, "RUB")) ∨
    (∃ b ∈ l.filterMap (fun r => get_price s.prices r.sku),
      (∀ x ∈ l.filterMap (fun r => get_price s.prices r.sku),
        b.price ≤ x.price) ∧
      l.foldl (scanStep s) (none, none, "RUB") =
        (some b.price, some b, b.currency)) := by
  intro l
  induction l with
  | nil => exact Or.inl ⟨rfl, rfl⟩
  | cons r t ih =>
    cases hg : get_price s.prices r.sku with
    | none =>
      have hstep : scanStep s (none, none, "RUB") r = (none, none, "RUB") := by
        unfold scanStep
        rw [hg]
      rcases ih with ⟨he, hf⟩ | ⟨b, hbm, hbd, hf⟩
      · left
        constructor
        · rw [List.filterMap_cons, hg]; exact he
        · rw [List.foldl_cons, hstep]; exact hf
      · right
        refine ⟨b, ?_, ?_, ?_⟩
        · rw [List.filterMap_cons, hg]; exact hbm
        · intro x hx
          rw [List.filterMap_cons, hg] at hx
          exact hbd x hx
        · rw [List.foldl_cons, hstep]; exact hf
    | some vp =>
      right
      have hstep : scanStep s (none, none, "RUB") r =
          (some vp.price, some vp, vp.currency) := by
        unfold scanStep
        rw [hg]
      obtain ⟨b, hb, hle, hbd, hf⟩ := scan_go s t vp
      refine ⟨b, ?_, ?_, ?_⟩
      · rw [List.filterMap_cons, hg]
        rcases hb with hb | hb
        · exact hb ▸ List.mem_cons_self _ _
        · exact List.mem_cons_of_mem _ hb
      · intro x hx
        rw [List.filterMap_cons, hg] at hx
        rcases List.mem_cons.mp hx with hx | hx
        · exact hx ▸ hle
        · exact hbd x hx
      · rw [List.foldl_cons, hstep]
        exact hf

/-- A product is one of its own model's variants. -/
theorem self_mem_modelVariants (s : DBState) (p : Product)
    (hp : p ∈ s.products) : p ∈ modelVariants s p := by
  unfold modelVariants
  refine List.mem_filter.mpr ⟨hp, ?_⟩
  simp

/-- When no variant of the model holds a price record, the card's price
object is the all-zero default. -/
theorem priceObjFor_empty (s : DBState) (p : Product) (hp : p ∈ s.products)
    (he : (modelVariants s p).filterMap (fun r => get_price s.prices r.sku)
      = []) :
    priceObjFor s p =
      { price := 0, old_price := 0, discount_percentage := 0,
        currency := "RUB" } := by
  have hnone : get_price s.prices p.sku = none := by
    cases hg : get_price s.prices p.sku with
    | none => rfl
    | some pd =>
      have : pd ∈ (modelVariants s p).filterMap
          (fun r => get_price s.prices r.sku) :=
        List.mem_filterMap.mpr ⟨p, self_mem_modelVariants s p hp, hg⟩
      rw [he] at this
      simp at this
  rcases scan_spec s (modelVariants s p) with ⟨_, hf⟩ | ⟨b, hbm, _, _⟩
  · unfold priceObjFor
    rw [hf, hnone]
  · rw [he] at hbm
    simp at hbm

/-- When some variant holds a price record, the card's price object
comes from a minimum-priced variant's record. -/
theorem priceObjFor_min (s : DBState) (p : Product)
    (hne : (modelVariants s p).filterMap (fun r => get_price s.prices r.sku)
      ≠ []) :
    ∃ b ∈ (modelVariants s p).filterMap (fun r => get_price s.prices r.sku),
      (∀ x ∈ (modelVariants s p).filterMap
          (fun r => get_price s.prices r.sku), b.price ≤ x.price) ∧
      priceObjFor s p =
        { price := b.price, old_price := oldPriceFallback b,
          discount_percentage :=
            if oldPriceFallback b ≠ 0 ∧ b.price < oldPriceFallback b then
              (oldPriceFallback b - b.price) / oldPriceFallback b * 100
            else 0,
          currency := b.currency } := by
  rcases scan_spec s (modelVariants s p) with ⟨he, _⟩ | ⟨b, hbm, hbd, hf⟩
  · exact absurd he hne
  · refine ⟨b, hbm, hbd, ?_⟩
    unfold priceObjFor
    rw [hf]
    unfold oldPriceFallback
    rfl

/-- The card fields determined by the representative row and its price
object. -/
theorem buildCard_ok (s : DBState) (p : Product) (c : Card)
    (h : buildCard s p = Except.ok c) :
    c.id = p.id ∧ c.brand = p.brand ∧ c.level_2 = p.level_2 ∧
    c.price = (priceObjFor s p).price ∧
    c.old_price = (priceObjFor s p).old_price ∧
    c.discount_percentage = (priceObjFor s p).discount_percentage ∧
    c.currency = (priceObjFor s p).currency := by
  unfold buildCard at h
  dsimp only at h
  cases hm : splatMerge (descAndDetails s p).2 (ownSpecs p) with
  | error e => rw [hm] at h; simp [bind, Except.bind] at h
  | ok m =>
    rw [hm] at h
    cases hi : get_product_images s p with
    | error e => rw [hi] at h; simp [bind, Except.bind] at h
    | ok imgs =>
      rw [hi] at h
      simp only [bind, Except.bind, Except.ok.injEq] at h
      subst h
      exact ⟨rfl, rfl, rfl, rfl, rfl, rfl, rfl⟩

/-- Membership in the representative selection: the row satisfies the
filter and carries the minimal id of its filtered
`(level_2, brand)` group. -/
theorem mem_selectedRepsBy (pred : Product → Bool) (s : DBState)
    (hid : (productIds s).Nodup) (p : Product)
    (hp : p ∈ selectedRepsBy pred s) :
    p ∈ s.products ∧ pred p = true ∧
    ∀ r ∈ s.products, pred r = true → r.level_2 = p.level_2 →
      r.brand = p.brand → p.id ≤ r.id := by
  unfold selectedRepsBy at hp
  obtain ⟨hmem, hany⟩ := List.mem_filter.mp hp
  obtain ⟨r0, hr0, hmin⟩ := List.any_eq_true.mp hany
  have hmin' : groupMinId (s.products.filter pred) (r0.level_2, r0.brand) =
      some p.id := eq_of_beq hmin
  unfold groupMinId at hmin'
  obtain ⟨hminMem, hbound⟩ := natMin?_spec _ _ hmin'
  obtain ⟨g, hgMem, hgid⟩ := List.mem_map.mp hminMem
  obtain ⟨hgRows, hgKey⟩ := List.mem_filter.mp hgMem
  obtain ⟨hgProducts, hgPred⟩ := List.mem_filter.mp hgRows
  have hpg : p = g := by
    refine List.inj_on_of_nodup_map hid hmem hgProducts ?_
    exact hgid.symm
  subst hpg
  have hkey : p.level_2 = r0.level_2 ∧ p.brand = r0.brand := by
    have := hgKey
    simp only [Bool.and_eq_true, beq_iff_eq] at this
    exact this
  refine ⟨hmem, hgPred, ?_⟩
  intro r hr hrPred hrl2 hrbrand
  have hrGroup : r ∈ (s.products.filter pred).filter
      (fun x => x.level_2 == r0.level_2 && x.brand == r0.brand) := by
    refine List.mem_filter.mpr ⟨List.mem_filter.mpr ⟨hr, hrPred⟩, ?_⟩
    simp only [Bool.and_eq_true, beq_iff_eq]
    exact ⟨hrl2.trans hkey.1, hrbrand.trans hkey.2⟩
  exact hbound r.id (List.mem_map.mpr ⟨r, hrGroup, rfl⟩)

/-- Sorting is a permutation, so membership carries over. -/
theorem mem_of_mem_sortedReps (pred : Product → Bool) (s : DBState)
    (p : Product) (hp : p ∈ sortedReps pred s) :
    p ∈ selectedRepsBy pred s := by
  unfold sortedReps at hp
  exact (List.perm_insertionSort _ _).mem_iff.mp hp

/-- C2 counterexample.  The claim as stated — every card's representative
id is minimal among **all** rows sharing its `(level_2, brand)` pair —
fails: with two variants of one model distinguished by `level_1` and a
`level1` filter matching only the second (id 2), `/products` returns the
card with id 2, although id 1 shares the pair. -/
theorem C2_representative_counterexample :
    ¬ repIsGlobalMinAt exStateC2 exQueryC2 := by
  unfold repIsGlobalMinAt
  decide

/-- C2 (amended).  Every card of `GET /products` comes from a
representative row carrying the smallest id among the rows that satisfy
the request's filters and share its `(level_2, brand)` pair; the card's
price is the minimum price over all of the model's variants holding a
price-store record (not restricted by the filters), with currency and
old price taken from a minimum-priced variant's record — the old price
falling back to the minimum price when the record's old price is absent
or zero — and the discount recomputed from that pair (zero when the
chosen old price is zero or does not exceed the price); with no priced
variant at all the card degrades to the zero/RUB defaults. -/
theorem C2_model_cards (s : DBState) (q : ProductsQuery)
    (hid : (productIds s).Nodup) (cards : List Card)
    (h : getProducts s q = Except.ok cards) (c : Card) (hc : c ∈ cards) :
    ∃ p ∈ s.products,
      matchesFilters q p = true ∧ c.id = p.id ∧ c.brand = p.brand ∧
      c.level_2 = p.level_2 ∧
      (∀ r ∈ s.products, matchesFilters q r = true →
        r.level_2 = p.level_2 → r.brand = p.brand → p.id ≤ r.id) ∧
      ((modelVariants s p).filterMap (fun r => get_price s.prices r.sku)
          = [] →
        c.price = 0 ∧ c.old_price = 0 ∧ c.discount_percentage = 0 ∧
        c.currency = "RUB") ∧
      ((modelVariants s p).filterMap (fun r => get_price s.prices r.sku)
          ≠ [] →
        ∃ b ∈ (modelVariants s p).filterMap
            (fun r => get_price s.prices r.sku),
          (∀ x ∈ (modelVariants s p).filterMap
              (fun r => get_price s.prices r.sku), b.price ≤ x.price) ∧
          c.price = b.price ∧ c.currency = b.currency ∧
          c.old_price = oldPriceFallback b ∧
          c.discount_percentage =
            (if oldPriceFallback b ≠ 0 ∧ b.price < oldPriceFallback b then
              (oldPriceFallback b - b.price) / oldPriceFallback b * 100
             else 0)) := by
  unfold getProducts at h
  obtain ⟨p, hpPage, hbc⟩ := mapCards_ok_mem s _ cards h c hc
  have hpSorted : p ∈ sortedReps (matchesFilters q) s :=
    List.mem_of_mem_drop (List.mem_of_mem_take hpPage)
  have hpSel := mem_of_mem_sortedReps _ s p hpSorted
  obtain ⟨hpMem, hpPred, hpMin⟩ :=
    mem_selectedRepsBy (matchesFilters q) s hid p hpSel
  obtain ⟨hcid, hcbrand, hcl2, hcprice, hcold, hcdisc, hccur⟩ :=
    buildCard_ok s p c hbc
  refine ⟨p, hpMem, hpPred, hcid, hcbrand, hcl2, hpMin, ?_, ?_⟩
  · intro he
    have := priceObjFor_empty s p hpMem he
    rw [this] at hcprice hcold hcdisc hccur
    exact ⟨hcprice, hcold, hcdisc, hccur⟩
  · intro hne
    obtain ⟨b, hbm, hbd, hpo⟩ := priceObjFor_min s p hne
    rw [hpo] at hcprice hcold hcdisc hccur
    exact ⟨b, hbm, hbd, hcprice, hccur, hcold, hcdisc⟩

/-- C2 witness: the amended theorem applied to the concrete two-variant
state, its hypotheses discharged by evaluation. -/
theorem C2_model_cards_witness :
    cardsC2.length = 1 ∧
    ∀ c ∈ cardsC2, ∃ p ∈ exStateC2.products,
      matchesFilters exQueryC2 p = true ∧ c.id = p.id := by
  refine ⟨rfl, ?_⟩
  intro c hc
  obtain ⟨p, hp, hpred, hcid, _⟩ :=
    C2_model_cards exStateC2 exQueryC2 (by decide) cardsC2 rfl c hc
  exact ⟨p, hp, hpred, hcid⟩

end YoStore

namespace YoStore

theorem findFreeItem_none (s : DBState) (f : String)
    (items : List OrderItemCreate)
    (hnone : ∀ item ∈ items, lineMatchesFreeItem s f item = false) :
    findFreeItemInCart s f items = none := by
  unfold findFreeItemInCart
  rw [List.findSome?_eq_none_iff]
  intro item hitem
  have hl := hnone item hitem
  unfold lineMatchesFreeItem at hl
  cases hfp : s.products.find? (fun p => p.id == item.product_id) with
  | none => simp [hfp]
  | some p =>
    rw [hfp] at hl
    dsimp only at hl
    simp only [hfp]
    rw [if_neg]
    rw [hl]
    simp

theorem freeItemBranch_no_match (s : DBState) (pc : PromoCode)
    (req : PromoReq) (f : String)
    (hsku : pc.free_item_sku = some f) (hf : f ≠ "")
    (hcond : condDocSane pc)
    (hnone : ∀ item ∈ req.items, lineMatchesFreeItem s f item = false) :
    ∃ resp, freeItemBranch s pc req = Except.ok resp ∧
      resp.valid = false := by
  have hfi := findFreeItem_none s f req.items hnone
  unfold freeItemBranch
  rcases hcond with hcd | ⟨e, hcd⟩ | ⟨kvs, hcd⟩ <;> rw [hcd]
  · simp only [bind, Except.bind]
    rw [hsku]
    dsimp only
    rw [if_pos hf, hfi]
    exact ⟨_, rfl, rfl⟩
  · simp only [bind, Except.bind]
    rw [hsku]
    dsimp only
    rw [if_pos hf, hfi]
    exact ⟨_, rfl, rfl⟩
  · by_cases hcat : hasCategoryItem s (conditionCategory kvs) req.items
    · simp only [bind, Except.bind, hcat, if_true]
      rw [hsku]
      dsimp only
      rw [if_pos hf, hfi]
      exact ⟨_, rfl, rfl⟩
    · simp only [bind, Except.bind, hcat, Bool.false_eq_true, if_false]
      exact ⟨_, rfl, rfl⟩

theorem checkPromo_free_item_dispatch (s : DBState) (now : Nat)
    (req : PromoReq) (pc : PromoCode)
    (hfind : findActivePromo s (pyUpper req.code) = some pc)
    (htype : pc.discount_type = "free_item")
    (hEarly : promoRejectedEarly now req.cart_total pc = false) :
    checkPromoCode s now req = freeItemBranch s pc req := by
  unfold promoRejectedEarly at hEarly
  simp only [Bool.or_eq_false_iff] at hEarly
  obtain ⟨⟨⟨h1, h2⟩, h3⟩, h4⟩ := hEarly
  unfold checkPromoCode
  rw [hfind]
  dsimp only
  rw [h1, h2, h3, h4, htype]
  simp

end YoStore

namespace YoStore

theorem checkPromo_early_reject (s : DBState) (now : Nat) (req : PromoReq)
    (pc : PromoCode)
    (hfind : findActivePromo s (pyUpper req.code) = some pc)
    (hEarly : promoRejectedEarly now req.cart_total pc = true) :
    ∃ resp, checkPromoCode s now req = Except.ok resp ∧
      resp.valid = false := by
  unfold checkPromoCode
  rw [hfind]
  dsimp only
  by_cases h1 : validFromRejects now pc = true
  · rw [if_pos h1]; exact ⟨_, rfl, rfl⟩
  rw [if_neg h1]
  by_cases h2 : validUntilRejects now pc = true
  · rw [if_pos h2]; exact ⟨_, rfl, rfl⟩
  rw [if_neg h2]
  by_cases h3 : usageLimitRejects pc = true
  · rw [if_pos h3]; exact ⟨_, rfl, rfl⟩
  rw [if_neg h3]
  by_cases h4 : minAmountRejects req.cart_total pc = true
  · rw [if_pos h4]; exact ⟨_, rfl, rfl⟩
  unfold promoRejectedEarly at hEarly
  simp [h1, h2, h3, h4] at hEarly

theorem freeItemBranch_match (s : DBState) (pc : PromoCode) (req : PromoReq)
    (f : String) (p : Product)
    (hsku : pc.free_item_sku = some f) (hf : f ≠ "")
    (hcond : condDocSane pc)
    (hgate : categoryGatePasses s pc req.items = true)
    (hfound : findFreeItemInCart s f req.items = some p) :
    (∀ pd, get_price s.prices p.sku = some pd →
      freeItemBranch s pc req =
        Except.ok (promoOkResp pc pd.price (some p.sku) (some p.name))) ∧
    (get_price s.prices p.sku = none →
      ∃ resp, freeItemBranch s pc req = Except.ok resp ∧
        resp.valid = false) := by
  have hmain : freeItemBranch s pc req =
      (match get_price s.prices p.sku with
       | some pd => Except.ok (promoOkResp pc pd.price (some p.sku)
           (some p.name))
       | none => Except.ok
           { valid := false,
             message := some "Не удалось определить цену товара для бесплатной выдачи" }) := by
    unfold freeItemBranch
    rcases hcond with hcd | ⟨e, hcd⟩ | ⟨kvs, hcd⟩ <;> rw [hcd]
    · simp only [bind, Except.bind]
      rw [hsku]
      dsimp only
      rw [if_pos hf, hfound]
    · simp only [bind, Except.bind]
      rw [hsku]
      dsimp only
      rw [if_pos hf, hfound]
    · unfold categoryGatePasses at hgate
      rw [hcd] at hgate
      dsimp only at hgate
      simp only [bind, Except.bind]
      rw [if_pos hgate]
      dsimp only
      rw [hsku]
      dsimp only
      rw [if_pos hf, hfound]
  constructor
  · intro pd hpd
    rw [hmain, hpd]
  · intro hpd
    rw [hmain, hpd]
    exact ⟨_, rfl, rfl⟩

/-- C3.  For an active `free_item` promo code with a non-empty
`free_item_sku` and a sane condition document: when no cart line's
product SKU contains the free-item SKU case-insensitively the check
answers `valid = false`; when a line matches (and the window / usage /
minimum-amount gates and the category gate pass) the check answers
`valid = true` with `discount_amount` equal to that product's current
store price, and `valid = false` when that product has no price record;
the handler never changes the state (in particular it adds no cart
line). -/
theorem C3_free_item_promo (s : DBState) (now : Nat) (req : PromoReq)
    (pc : PromoCode) (f : String)
    (hfind : findActivePromo s (pyUpper req.code) = some pc)
    (htype : pc.discount_type = "free_item")
    (hsku : pc.free_item_sku = some f) (hf : f ≠ "")
    (hcond : condDocSane pc) :
    ((∀ item ∈ req.items, lineMatchesFreeItem s f item = false) →
      ∃ resp, checkPromoCode s now req = Except.ok resp ∧
        resp.valid = false) ∧
    (∀ p, findFreeItemInCart s f req.items = some p →
      promoRejectedEarly now req.cart_total pc = false →
      categoryGatePasses s pc req.items = true →
      (∀ pd, get_price s.prices p.sku = some pd →
        checkPromoCode s now req =
          Except.ok (promoOkResp pc pd.price (some p.sku) (some p.name))) ∧
      (get_price s.prices p.sku = none →
        ∃ resp, checkPromoCode s now req = Except.ok resp ∧
          resp.valid = false)) ∧
    (runCheckPromo s now req).1 = s := by
  refine ⟨?_, ?_, rfl⟩
  · intro hnone
    by_cases hEarly : promoRejectedEarly now req.cart_total pc = true
    · exact checkPromo_early_reject s now req pc hfind hEarly
    · have hE : promoRejectedEarly now req.cart_total pc = false :=
        Bool.not_eq_true _ ▸ eq_false_of_ne_true hEarly
      rw [checkPromo_free_item_dispatch s now req pc hfind htype hE]
      exact freeItemBranch_no_match s pc req f hsku hf hcond hnone
  · intro p hfound hE hgate
    rw [checkPromo_free_item_dispatch s now req pc hfind htype hE]
    exact freeItemBranch_match s pc req f p hsku hf hcond hgate hfound

end YoStore

namespace YoStore

theorem get_price_delete_self (st : PriceStore) (k : String) :
    get_price (delete_price st k) k = none := by
  unfold get_price delete_price
  induction st with
  | nil => rfl
  | cons kv t ih =>
    simp only [List.filter_cons]
    by_cases h : kv.1 = k
    · have hc : decide (kv.1 ≠ k) = false := by simp [h]
      rw [hc]
      simpa using ih
    · have hc : decide (kv.1 ≠ k) = true := by simp [h]
      rw [hc]
      have hk : (kv.1 == k) = false := by simp [h]
      simp only [if_true]
      unfold storeLookup
      rw [hk]
      simpa using ih

theorem mem_eraseP_proj {α β : Type} [BEq β] [LawfulBEq β] (g : α → β)
    (k : β) : ∀ (l : List α), (l.map g).Nodup →
      ∀ p, l.find? (fun x => g x == k) = some p →
        ∀ r ∈ l.eraseP (fun x => g x == k), g r ≠ k := by
  intro l
  induction l with
  | nil => intro _ p hp; cases hp
  | cons a t ih =>
    intro hnd p hp r hr
    rw [List.map_cons] at hnd
    rcases List.nodup_cons.mp hnd with ⟨hnotin, hndt⟩
    by_cases ha : (g a == k) = true
    · rw [@List.eraseP_cons_of_pos _ a t (fun x => g x == k) ha] at hr
      intro hrk
      have hak : g a = k := eq_of_beq ha
      exact hnotin (by
        rw [hak, ← hrk]
        exact List.mem_map.mpr ⟨r, hr, rfl⟩)
    · rw [@List.eraseP_cons_of_neg _ a t (fun x => g x == k)
        (by simpa using ha)] at hr
      rw [List.find?_cons_of_neg _ (by simpa using ha)] at hp
      rcases List.mem_cons.mp hr with hr | hr
      · subst hr
        intro hrk
        exact ha (by simp [hrk])
      · exact ih hndt p hp r hr

theorem nodup_snoc {β : Type} (l : List β) (a : β)
    (hl : l.Nodup) (ha : a ∉ l) : (l ++ [a]).Nodup := by
  rw [List.nodup_append]
  exact ⟨hl, List.nodup_singleton a, by
    intro x hx hxa
    rcases List.mem_singleton.mp hxa with h
    exact ha (h ▸ hx)⟩

end YoStore

namespace YoStore

/-- C7.  `DELETE /products/{id}` and `DELETE /products/by-sku/{sku}`
remove the first matching product row together with its price-store
entry — afterwards `get_price` for that SKU reports absence and (under
the primary-key/unique-column invariants) no row with that id / SKU
remains — while the other tables are untouched; an unknown id or SKU
yields 404 with the state unchanged. -/
theorem C7_delete_removes_row_and_price (s : DBState) (pid : Nat) (k : String) :
    (∀ p, s.products.find? (fun r => r.id == pid) = some p →
      deleteProduct s pid =
        ({ s with prices := delete_price s.prices p.sku,
                  products := s.products.eraseP (fun r => r.id == pid) },
         .ok p.id p.sku) ∧
      get_price (deleteProduct s pid).1.prices p.sku = none ∧
      ((productIds s).Nodup →
        ∀ r ∈ (deleteProduct s pid).1.products, r.id ≠ pid) ∧
      (deleteProduct s pid).1.categories = s.categories ∧
      (deleteProduct s pid).1.orders = s.orders ∧
      (deleteProduct s pid).1.images = s.images) ∧
    (s.products.find? (fun r => r.id == pid) = none →
      deleteProduct s pid = (s, .notFound)) ∧
    (∀ p, s.products.find? (fun r => r.sku == k) = some p →
      deleteProductBySku s k =
        ({ s with prices := delete_price s.prices k,
                  products := s.products.eraseP (fun r => r.sku == k) },
         .ok p.id k) ∧
      get_price (deleteProductBySku s k).1.prices k = none ∧
      ((skus s).Nodup →
        ∀ r ∈ (deleteProductBySku s k).1.products, r.sku ≠ k)) ∧
    (s.products.find? (fun r => r.sku == k) = none →
      deleteProductBySku s k = (s, .notFound)) := by
  refine ⟨?_, ?_, ?_, ?_⟩
  · intro p hp
    have hD : deleteProduct s pid =
        ({ s with prices := delete_price s.prices p.sku,
                  products := s.products.eraseP (fun r => r.id == pid) },
         .ok p.id p.sku) := by
      unfold deleteProduct
      rw [hp]
    refine ⟨hD, ?_, ?_, ?_, ?_, ?_⟩
    · rw [hD]
      exact get_price_delete_self s.prices p.sku
    · intro hnd r hr
      rw [hD] at hr
      unfold productIds at hnd
      exact mem_eraseP_proj (fun x => x.id) pid s.products hnd p hp r hr
    · rw [hD]
    · rw [hD]
    · rw [hD]
  · intro hp
    unfold deleteProduct
    rw [hp]
  · intro p hp
    have hD : deleteProductBySku s k =
        ({ s with prices := delete_price s.prices k,
                  products := s.products.eraseP (fun r => r.sku == k) },
         .ok p.id k) := by
      unfold deleteProductBySku
      rw [hp]
    refine ⟨hD, ?_, ?_⟩
    · rw [hD]
      exact get_price_delete_self s.prices k
    · intro hnd r hr
      rw [hD] at hr
      unfold skus at hnd
      exact mem_eraseP_proj (fun x => x.sku) k s.products hnd p hp r hr
  · intro hp
    unfold deleteProductBySku
    rw [hp]

/-- C7 witness: deleting the one product of the concrete state. -/
theorem C7_delete_removes_row_and_price_witness :
    get_price (deleteProduct exState1 1).1.prices "SKU1" = none ∧
    (∀ r ∈ (deleteProduct exState1 1).1.products, r.id ≠ 1) ∧
    deleteProduct exState1 7 = (exState1, .notFound) ∧
    get_price (deleteProductBySku exState1 "SKU1").1.prices "SKU1" = none ∧
    deleteProductBySku exState1 "NOPE" = (exState1, .notFound) := by
  have h := C7_delete_removes_row_and_price exState1 1 "SKU1"
  have h7 := C7_delete_removes_row_and_price exState1 7 "NOPE"
  refine ⟨?_, ?_, ?_, ?_, ?_⟩
  · exact (h.1 exProduct1 rfl).2.1
  · exact (h.1 exProduct1 rfl).2.2.1 (by decide)
  · exact h7.2.1 rfl
  · exact (h.2.2.1 exProduct1 rfl).2.1
  · exact h7.2.2.2 rfl

end YoStore

namespace YoStore

/-- C3 witness: the adapter promo applied to a concrete cart. -/
theorem C3_free_item_promo_witness :
    checkPromoCode exStateC3 100 exReqC3 =
      Except.ok (promoOkResp exPromoC3 990 (some "X-Adapter-1")
        (some "Adapter")) ∧
    (∃ resp, checkPromoCode exStateC3 100 exReqC3empty = Except.ok resp ∧
      resp.valid = false) := by
  have h := C3_free_item_promo exStateC3 100 exReqC3 exPromoC3 "ADAPT" rfl rfl rfl
    (by decide) (Or.inl rfl)
  have hempty := C3_free_item_promo exStateC3 100 exReqC3empty exPromoC3 "ADAPT" rfl rfl
    rfl (by decide) (Or.inl rfl)
  constructor
  · have hb := (h.2.1 exProdAdapter rfl rfl rfl).1
      { price := 990, old_price := some 990, currency := "RUB",
        discount_percentage := 0, is_parse := true } rfl
    exact hb
  · exact hempty.1 (by intro item hitem; cases hitem)

end YoStore


namespace YoStore

theorem map_updFirst_eq {α β : Type} (g : α → β) (p : α → Bool) (f : α → α)
    (hf : ∀ x, g (f x) = g x) : ∀ l : List α,
      (updFirst p f l).map g = l.map g := by
  intro l
  induction l with
  | nil => rfl
  | cons x t ih =>
    unfold updFirst
    by_cases hx : p x
    · rw [if_pos hx]
      simp [hf x]
    · rw [if_neg hx]
      simp [ih]

theorem map_updFirst_find? {α β : Type} (g : α → β) (p : α → Bool)
    (f : α → α) : ∀ (l : List α) (a : α), l.find? p = some a →
      g (f a) = g a → (updFirst p f l).map g = l.map g := by
  intro l
  induction l with
  | nil => intro a ha; cases ha
  | cons x t ih =>
    intro a ha hg
    unfold updFirst
    by_cases hx : p x = true
    · rw [List.find?_cons_of_pos _ hx] at ha
      cases ha
      rw [if_pos hx]
      simp [hg]
    · rw [List.find?_cons_of_neg _ hx] at ha
      rw [if_neg hx]
      simp [ih a ha hg]

theorem applyUpdateFields_sku (body : UpdateBody) (p : Product) :
    (applyUpdateFields body p).sku = p.sku := by
  unfold applyUpdateFields
  rcases body.name <;> rcases body.brand <;> rcases body.level_0 <;>
    rcases body.level_1 <;> rcases body.level_2 <;>
    rcases body.is_available <;> rcases body.stock <;> rfl

theorem not_mem_skus_of_any_false (s : DBState) (k : String)
    (h : s.products.any (fun p => p.sku == k) = false) : k ∉ skus s := by
  intro hmem
  obtain ⟨p, hp, hpk⟩ := List.mem_map.mp hmem
  have : s.products.any (fun p => p.sku == k) = true :=
    List.any_eq_true.mpr ⟨p, hp, by simp [hpk]⟩
  rw [h] at this
  cases this

theorem skus_update_eq (s : DBState) (pid : Nat) (body : UpdateBody) :
    skus (updateProduct s pid body).1 = skus s := by
  unfold updateProduct
  cases hf : s.products.find? (fun p => p.id == pid) with
  | none => rfl
  | some product =>
    dsimp only
    by_cases hc : (body.color.isSome || body.disk.isSome ||
        body.sim_config.isSome) = true
    · rw [if_pos hc]
    · rw [if_neg hc]
      cases him : updateImgStep s body (applyUpdateFields body product) with
      | error e => rfl
      | ok images1 =>
        unfold skus
        dsimp only
        exact map_updFirst_find? (fun x => x.sku) _
          (fun _ => applyUpdateFields body product) s.products product hf
          (applyUpdateFields_sku body product)

end YoStore

namespace YoStore

theorem skus_importSingle (s : DBState) (ts : Nat) (body : CreateBody)
    (h : (skus s).Nodup) :
    (skus (importSingleProduct s ts body).1).Nodup := by
  unfold importSingleProduct
  split
  · exact h
  dsimp only
  split
  all_goals
    split
    · exact h
    next hany =>
      split
      · exact h
      next =>
        unfold skus
        dsimp only
        rw [List.map_append]
        refine nodup_snoc _ _ h ?_
        exact not_mem_skus_of_any_false s _ (by simpa using hany)

theorem skus_delete (s : DBState) (pid : Nat) (h : (skus s).Nodup) :
    (skus (deleteProduct s pid).1).Nodup := by
  unfold deleteProduct
  cases hf : s.products.find? (fun p => p.id == pid) with
  | none => exact h
  | some p =>
    unfold skus at h ⊢
    dsimp only
    exact ((List.eraseP_sublist _).map _).nodup h

theorem skus_deleteBySku (s : DBState) (k : String) (h : (skus s).Nodup) :
    (skus (deleteProductBySku s k).1).Nodup := by
  unfold deleteProductBySku
  cases hf : s.products.find? (fun p => p.sku == k) with
  | none => exact h
  | some p =>
    unfold skus at h ⊢
    dsimp only
    exact ((List.eraseP_sublist _).map _).nodup h

end YoStore

namespace YoStore

theorem skus_excelImport (s : DBState) (ts : Nat) (row : ExcelRow)
    (h : (skus s).Nodup) :
    (skus (excelImportRow s ts row).1).Nodup := by
  unfold excelImportRow
  split
  · exact h
  split
  · exact h
  dsimp only
  split
  all_goals
    split
    · exact h
    next hany =>
      split
      · exact h
      next =>
        unfold skus
        dsimp only
        rw [List.map_append]
        refine nodup_snoc _ _ h ?_
        exact not_mem_skus_of_any_false s _ (by simpa using hany)

theorem skus_upsert_found (s : DBState) (ts : Nat) (row : ExcelRow)
    (p0 : Product)
    (hf : s.products.find? (fun p => p.sku == upsertSku ts row) = some p0) :
    skus (excelUpsertRow s ts row).1 = skus s := by
  unfold excelUpsertRow
  dsimp only
  rw [hf]
  cases hl0 : row.level0 with
  | none =>
    unfold skus
    dsimp only
    refine map_updFirst_eq (fun x => x.sku) _ _ (fun x => ?_) s.products
    rfl
  | some l0 =>
    dsimp only
    split
    · split
      · unfold skus
        dsimp only
        refine map_updFirst_eq (fun x => x.sku) _ _ (fun x => ?_) s.products
        rfl
      · unfold skus
        dsimp only
        refine map_updFirst_eq (fun x => x.sku) _ _ (fun x => ?_) s.products
        rfl
    · split
      · unfold skus
        dsimp only
        refine map_updFirst_eq (fun x => x.sku) _ _ (fun x => ?_) s.products
        rfl
      · unfold skus
        dsimp only
        refine map_updFirst_eq (fun x => x.sku) _ _ (fun x => ?_) s.products
        rfl

theorem skus_upsert (s : DBState) (ts : Nat) (row : ExcelRow)
    (h : (skus s).Nodup) :
    (skus (excelUpsertRow s ts row).1).Nodup := by
  cases hf : s.products.find? (fun p => p.sku == upsertSku ts row) with
  | some p0 => rw [skus_upsert_found s ts row p0 hf]; exact h
  | none =>
    unfold excelUpsertRow
    dsimp only
    rw [hf]
    cases hl0 : row.level0 with
    | none => exact h
    | some l0 =>
      dsimp only
      split
      · exact h
      next specs0 hspec =>
        unfold skus
        dsimp only
        rw [List.map_append]
        refine nodup_snoc _ _ h ?_
        intro hmem
        obtain ⟨p, hp, hpk⟩ := List.mem_map.mp hmem
        have := List.find?_eq_none.mp hf p hp
        simp [hpk] at this

end YoStore

namespace YoStore

/-- C8.  SKU uniqueness is an invariant of every modelled API
operation: from a state whose product SKUs are pairwise distinct, every
operation preserves distinctness; a single-product create whose explicit
non-empty SKU already exists returns 400 and leaves the state unchanged;
`PUT /products/{id}` never changes any SKU; and an excel upsert that
finds an existing row with the generated SKU updates it in place,
leaving the SKU list unchanged. -/
theorem C8_sku_uniqueness (s : DBState) (op : ApiOp) (h : (skus s).Nodup) :
    (skus (applyOp s op)).Nodup ∧
    (∀ (ts : Nat) (body : CreateBody) (k : String), body.sku = some k →
      k ≠ "" → k ∈ skus s →
      importSingleProduct s ts body = (s, .badRequest)) ∧
    (∀ pid body, skus (updateProduct s pid body).1 = skus s) ∧
    (∀ ts row p0,
      s.products.find? (fun p => p.sku == upsertSku ts row) = some p0 →
      skus (excelUpsertRow s ts row).1 = skus s) := by
  refine ⟨?_, ?_, ?_, ?_⟩
  · cases op with
    | importSingle ts b => exact skus_importSingle s ts b h
    | updateById pid b =>
      have : applyOp s (.updateById pid b) = (updateProduct s pid b).1 := rfl
      rw [this, skus_update_eq]
      exact h
    | deleteById pid => exact skus_delete s pid h
    | deleteBySku k => exact skus_deleteBySku s k h
    | excelImport ts r => exact skus_excelImport s ts r h
    | excelUpsert ts r => exact skus_upsert s ts r h
    | orderCreate n b => exact h
    | promoCheck now req => exact h
  · intro ts body k hk hkne hmem
    obtain ⟨p, hp, hpk⟩ := List.mem_map.mp hmem
    have hany : s.products.any (fun q => q.sku == k) = true :=
      List.any_eq_true.mpr ⟨p, hp, by simp [hpk]⟩
    unfold importSingleProduct
    by_cases hreq : (optStrTruthy body.name && optStrTruthy body.brand &&
        optStrTruthy body.model) = true
    · have hb : (!(optStrTruthy body.name && optStrTruthy body.brand &&
          optStrTruthy body.model)) = false := by rw [hreq]; rfl
      rw [hb]
      simp only [Bool.false_eq_true, if_false]
      have hsku : optStrTruthy body.sku = true := by
        rw [hk]
        unfold optStrTruthy
        simp [hkne]
      rw [hsku]
      simp only [if_true]
      rw [hk]
      simp only [Option.getD_some]
      rw [hany]
      simp
    · have hb : (!(optStrTruthy body.name && optStrTruthy body.brand &&
          optStrTruthy body.model)) = true := by
        have hfa : (optStrTruthy body.name && optStrTruthy body.brand &&
            optStrTruthy body.model) = false := eq_false_of_ne_true hreq
        rw [hfa]
        rfl
      rw [hb]
      simp
  · exact fun pid body => skus_update_eq s pid body
  · intro ts row p0 hf
    exact skus_upsert_found s ts row p0 hf

end YoStore

namespace YoStore

/-- C8 witness: a create with the already-present SKU "SKU1" on the
concrete state is rejected with state unchanged, and uniqueness holds
after the call. -/
theorem C8_sku_uniqueness_witness :
    (skus (applyOp exState1 (.importSingle 77
      { name := some "X", brand := some "B", model := some "M",
        sku := some "SKU1" }))).Nodup ∧
    importSingleProduct exState1 77
      { name := some "X", brand := some "B", model := some "M",
        sku := some "SKU1" } = (exState1, .badRequest) := by
  have h := C8_sku_uniqueness exState1 (.importSingle 77
    { name := some "X", brand := some "B", model := some "M",
      sku := some "SKU1" }) (by decide)
  exact ⟨h.1, h.2.1 77 _ "SKU1" rfl (by decide) (by decide)⟩

/-- C10.  `POST /promo-codes/check` is read-only: it returns the state
unchanged; every modelled operation other than order creation leaves
every promo code's `used_count` unchanged; and an order created without
a promo code leaves the promo-code table unchanged. -/
theorem C10_promo_check_read_only (s : DBState) (op : ApiOp) (now : Nat) (req : PromoReq) :
    runCheckPromo s now req = (s, checkPromoCode s now req) ∧
    applyOp s (.promoCheck now req) = s ∧
    (op.isOrderCreate = false → promoUsage (applyOp s op) = promoUsage s) ∧
    (∀ (nowStr : String) (body : OrderCreate), body.promo_code = none →
      (createOrder s nowStr body).1.promo_codes = s.promo_codes) := by
  refine ⟨rfl, rfl, ?_, ?_⟩
  · intro hop
    cases op with
    | orderCreate n b => cases hop
    | promoCheck now2 req2 => rfl
    | importSingle ts b =>
      show promoUsage (importSingleProduct s ts b).1 = promoUsage s
      unfold importSingleProduct
      repeat' split
      all_goals try dsimp only
      all_goals repeat' split
      all_goals rfl
    | updateById pid b =>
      show promoUsage (updateProduct s pid b).1 = promoUsage s
      unfold updateProduct
      repeat' split
      all_goals try dsimp only
      all_goals repeat' split
      all_goals rfl
    | deleteById pid =>
      show promoUsage (deleteProduct s pid).1 = promoUsage s
      unfold deleteProduct
      repeat' split
      all_goals try dsimp only
      all_goals rfl
    | deleteBySku k =>
      show promoUsage (deleteProductBySku s k).1 = promoUsage s
      unfold deleteProductBySku
      repeat' split
      all_goals try dsimp only
      all_goals rfl
    | excelImport ts r =>
      show promoUsage (excelImportRow s ts r).1 = promoUsage s
      unfold excelImportRow
      repeat' split
      all_goals try dsimp only
      all_goals repeat' split
      all_goals rfl
    | excelUpsert ts r =>
      show promoUsage (excelUpsertRow s ts r).1 = promoUsage s
      unfold excelUpsertRow
      repeat' split
      all_goals try dsimp only
      all_goals repeat' split
      all_goals rfl
  · intro nowStr body hnone
    unfold createOrder
    rw [hnone]

end YoStore

namespace YoStore

theorem length_updFirst {α : Type} (p : α → Bool) (f : α → α) :
    ∀ l : List α, (updFirst p f l).length = l.length := by
  intro l
  induction l with
  | nil => rfl
  | cons x t ih =>
    unfold updFirst
    by_cases hx : p x
    · rw [if_pos hx]
      simp
    · rw [if_neg hx]
      simp [ih]

theorem filter_length_updFirst {α : Type} (p q : α → Bool) (f : α → α)
    (hpf : ∀ x, p (f x) = p x) : ∀ l : List α,
      ((updFirst q f l).filter p).length = (l.filter p).length := by
  intro l
  induction l with
  | nil => rfl
  | cons x t ih =>
    unfold updFirst
    by_cases hx : q x
    · rw [if_pos hx]
      simp only [List.filter_cons, hpf x]
      cases p x <;> simp
    · rw [if_neg hx]
      simp only [List.filter_cons]
      cases p x <;> simp [ih]

theorem find?_updFirst_self {α : Type} (p : α → Bool) (f : α → α)
    (hpf : ∀ x, p (f x) = p x) : ∀ l : List α,
      (updFirst p f l).find? p = (l.find? p).map f := by
  intro l
  induction l with
  | nil => rfl
  | cons x t ih =>
    unfold updFirst
    by_cases hx : p x = true
    · rw [if_pos hx]
      rw [List.find?_cons_of_pos _ ((hpf x).trans hx)]
      rw [List.find?_cons_of_pos _ hx]
      rfl
    · rw [if_neg hx]
      rw [List.find?_cons_of_neg _ hx]
      rw [List.find?_cons_of_neg _ hx]
      exact ih

theorem mem_updFirst {α : Type} (p : α → Bool) (f : α → α) :
    ∀ (l : List α) (r : α), r ∈ updFirst p f l →
      r ∈ l ∨ ∃ x ∈ l, p x = true ∧ r = f x := by
  intro l
  induction l with
  | nil => intro r hr; cases hr
  | cons x t ih =>
    intro r hr
    unfold updFirst at hr
    by_cases hx : p x = true
    · rw [if_pos hx] at hr
      rcases List.mem_cons.mp hr with hr | hr
      · exact Or.inr ⟨x, List.mem_cons_self _ _, hx, hr⟩
      · exact Or.inl (List.mem_cons_of_mem _ hr)
    · rw [if_neg hx] at hr
      rcases List.mem_cons.mp hr with hr | hr
      · exact Or.inl (hr ▸ List.mem_cons_self _ _)
      · rcases ih r hr with h | ⟨y, hy, hpy, hry⟩
        · exact Or.inl (List.mem_cons_of_mem _ h)
        · exact Or.inr ⟨y, List.mem_cons_of_mem _ hy, hpy, hry⟩

theorem targetCount_zero_of_any_false (t : String) (db : List CategoryRow)
    (h : db.any (isTopCategory t) = false) : targetCount t db = 0 := by
  unfold targetCount
  rw [List.length_eq_zero, List.filter_eq_nil_iff]
  intro a ha hpa
  have : db.any (isTopCategory t) = true := List.any_eq_true.mpr ⟨a, ha, hpa⟩
  rw [h] at this
  cases this

theorem one_le_targetCount_of_mem (t : String) (db : List CategoryRow)
    (r : CategoryRow) (hr : r ∈ db) (hpr : isTopCategory t r = true) :
    1 ≤ targetCount t db := by
  unfold targetCount
  have : r ∈ db.filter (isTopCategory t) := List.mem_filter.mpr ⟨hr, hpr⟩
  exact List.length_pos_of_mem this

theorem any_of_targetCount_pos (t : String) (db : List CategoryRow)
    (h : 1 ≤ targetCount t db) : db.any (isTopCategory t) = true := by
  unfold targetCount at h
  obtain ⟨r, hr⟩ := List.exists_mem_of_length_pos h
  obtain ⟨hm, hp⟩ := List.mem_filter.mp hr
  exact List.any_eq_true.mpr ⟨r, hm, hp⟩

theorem seedUpd_isTop (t i d : String) (x : CategoryRow) :
    isTopCategory t (seedUpd i d x) = isTopCategory t x := rfl

end YoStore

namespace YoStore

theorem updFirst_seedUpd_icons (t i d : String) :
    ∀ db : List CategoryRow, targetCount t db ≤ 1 →
      ∀ r ∈ updFirst (isTopCategory t) (seedUpd i d) db,
        isTopCategory t r = true → r.icon = some i := by
  intro db
  induction db with
  | nil => intro _ r hr; cases hr
  | cons x xs ih =>
    intro hle r hr hpr
    unfold updFirst at hr
    by_cases hx : isTopCategory t x = true
    · rw [if_pos hx] at hr
      rcases List.mem_cons.mp hr with hr | hr
      · rw [hr]
        rfl
      · exfalso
        have hcount : targetCount t (x :: xs) = 1 + targetCount t xs := by
          unfold targetCount
          simp [List.filter_cons, hx, Nat.add_comm]
        have hxs : targetCount t xs = 0 := by omega
        have := one_le_targetCount_of_mem t xs r hr hpr
        omega
    · rw [if_neg hx] at hr
      rcases List.mem_cons.mp hr with hr | hr
      · rw [hr] at hpr
        exact absurd hpr hx
      · have hcount : targetCount t (x :: xs) = targetCount t xs := by
          unfold targetCount
          simp [List.filter_cons, hx]
        exact ih (by omega) r hr hpr

theorem genericSeed_run (t i d : String) (db : List CategoryRow)
    (h : targetCount t db ≤ 1) :
    targetCount t (runGenericSeed t i d db) = 1 ∧
    (∀ r ∈ runGenericSeed t i d db, isTopCategory t r = true →
      r.icon = some i) := by
  unfold runGenericSeed
  by_cases hany : db.any (isTopCategory t) = true
  · rw [if_pos hany]
    constructor
    · unfold targetCount
      rw [filter_length_updFirst _ _ _ (seedUpd_isTop t i d)]
      have h1 : 1 ≤ targetCount t db := by
        obtain ⟨r, hm, hp⟩ := List.any_eq_true.mp hany
        exact one_le_targetCount_of_mem t db r hm hp
      unfold targetCount at h h1
      omega
    · exact updFirst_seedUpd_icons t i d db h
  · rw [if_neg hany]
    have hz := targetCount_zero_of_any_false t db
      (eq_false_of_ne_true hany)
    constructor
    · unfold targetCount at hz ⊢
      rw [List.filter_append]
      have hrow : isTopCategory t (newSeedRow t i d db) = true := by
        unfold isTopCategory newSeedRow
        simp
      simp [hrow, hz, List.length_eq_zero.mp hz]
    · intro r hr hpr
      rcases List.mem_append.mp hr with hr | hr
      · exfalso
        have := one_le_targetCount_of_mem t db r hr hpr
        omega
      · rcases List.mem_singleton.mp hr with h
        rw [h]
        rfl

end YoStore

namespace YoStore

theorem stylersRename_isTop (x : CategoryRow) (legacy : String)
    (hx : isTopCategory legacy x = true) :
    isTopCategory "Фены и стайлеры" (stylersRename x) = true := by
  unfold isTopCategory at hx
  unfold isTopCategory stylersRename
  simp only [Bool.and_eq_true, beq_iff_eq] at hx
  simp only [Bool.and_eq_true, beq_iff_eq]
  exact ⟨⟨trivial, hx.1.2⟩, hx.2⟩

theorem count_updFirst_rename (legacy : String)
    (hren : ∀ x, isTopCategory legacy x = true →
      isTopCategory "Фены и стайлеры" (stylersRename x) = true) :
    ∀ db : List CategoryRow, db.any (isTopCategory legacy) = true →
      targetCount "Фены и стайлеры" db = 0 →
      targetCount "Фены и стайлеры"
        (updFirst (isTopCategory legacy) stylersRename db) = 1 := by
  intro db
  induction db with
  | nil => intro ha; cases ha
  | cons x xs ih =>
    intro hany hz
    have hxz : isTopCategory "Фены и стайлеры" x = false ∧
        targetCount "Фены и стайлеры" xs = 0 := by
      unfold targetCount at hz
      rw [List.filter_cons] at hz
      cases hx : isTopCategory "Фены и стайлеры" x
      · rw [hx] at hz
        simp only [Bool.false_eq_true, if_false] at hz
        exact ⟨rfl, hz⟩
      · rw [hx] at hz
        simp only [if_true] at hz
        simp at hz
    unfold updFirst
    by_cases hx : isTopCategory legacy x = true
    · rw [if_pos hx]
      unfold targetCount
      rw [List.filter_cons]
      have := hren x hx
      simp only [this, if_true]
      have := hxz.2
      unfold targetCount at this
      simp [this, List.length_eq_zero.mp this]
    · rw [if_neg hx]
      have hany' : xs.any (isTopCategory legacy) = true := by
        rcases List.any_eq_true.mp hany with ⟨y, hy, hpy⟩
        rcases List.mem_cons.mp hy with hy | hy
        · exact absurd (hy ▸ hpy) hx
        · exact List.any_eq_true.mpr ⟨y, hy, hpy⟩
      unfold targetCount
      rw [List.filter_cons]
      simp only [hxz.1]
      simp only [Bool.false_eq_true, if_false]
      exact ih hany' hxz.2

theorem stylersSeed_run (db : List CategoryRow)
    (h : targetCount "Фены и стайлеры" db ≤ 1) :
    targetCount "Фены и стайлеры" (runStylersSeed db) = 1 ∧
    (∀ r ∈ runStylersSeed db,
      isTopCategory "Фены и стайлеры" r = true →
      r.icon = some stylersIcon) := by
  unfold runStylersSeed
  by_cases h1 : (db.any (isTopCategory "Фены/стайлеры") &&
      !db.any (isTopCategory "Фены и стайлеры")) = true
  · rw [if_pos h1]
    rw [Bool.and_eq_true] at h1
    obtain ⟨hsl, hne⟩ := h1
    have hex : db.any (isTopCategory "Фены и стайлеры") = false := by
      cases hv : db.any (isTopCategory "Фены и стайлеры")
      · rfl
      · rw [hv] at hne; cases hne
    have hz := targetCount_zero_of_any_false _ db hex
    refine ⟨count_updFirst_rename _ (fun x hx => stylersRename_isTop x _ hx)
      db hsl hz, ?_⟩
    intro r hr hpr
    rcases mem_updFirst _ _ db r hr with hr | ⟨x, hx, hpx, hrx⟩
    · exfalso
      have := one_le_targetCount_of_mem _ db r hr hpr
      omega
    · rw [hrx]
      rfl
  · rw [if_neg h1]
    by_cases h2 : (db.any (isTopCategory "Стайлеры") &&
        !db.any (isTopCategory "Фены и стайлеры")) = true
    · rw [if_pos h2]
      rw [Bool.and_eq_true] at h2
      obtain ⟨hsl, hne⟩ := h2
      have hex : db.any (isTopCategory "Фены и стайлеры") = false := by
        cases hv : db.any (isTopCategory "Фены и стайлеры")
        · rfl
        · rw [hv] at hne; cases hne
      have hz := targetCount_zero_of_any_false _ db hex
      refine ⟨count_updFirst_rename _
        (fun x hx => stylersRename_isTop x _ hx) db hsl hz, ?_⟩
      intro r hr hpr
      rcases mem_updFirst _ _ db r hr with hr | ⟨x, hx, hpx, hrx⟩
      · exfalso
        have := one_le_targetCount_of_mem _ db r hr hpr
        omega
      · rw [hrx]
        rfl
    · rw [if_neg h2]
      exact genericSeed_run _ _ _ db h

end YoStore

namespace YoStore

theorem genericSeed_update_branch (t i d : String) (db : List CategoryRow)
    (hany : db.any (isTopCategory t) = true) :
    runGenericSeed t i d db = updFirst (isTopCategory t) (seedUpd i d) db := by
  unfold runGenericSeed
  rw [if_pos hany]

theorem stylersSeed_update_branch (db : List CategoryRow)
    (hany : db.any (isTopCategory "Фены и стайлеры") = true) :
    runStylersSeed db = updFirst (isTopCategory "Фены и стайлеры")
      (seedUpd stylersIcon stylersDescription) db := by
  unfold runStylersSeed
  dsimp only
  simp only [hany, Bool.not_true, Bool.and_false, Bool.false_eq_true,
    if_false]
  exact genericSeed_update_branch _ _ _ db hany

theorem runSeed_count_icons (sc : SeedScript) (db : List CategoryRow)
    (h : targetCount (seedTarget sc) db ≤ 1) :
    targetCount (seedTarget sc) (runSeedScript sc db) = 1 ∧
    (∀ r ∈ runSeedScript sc db, isTopCategory (seedTarget sc) r = true →
      r.icon = some (seedIcon sc)) := by
  cases sc with
  | headphones => exact genericSeed_run _ _ _ db h
  | smartWatches => exact genericSeed_run _ _ _ db h
  | tablets => exact genericSeed_run _ _ _ db h
  | stylers => exact stylersSeed_run db h

theorem runSeed_second (sc : SeedScript) (db1 : List CategoryRow)
    (hany : db1.any (isTopCategory (seedTarget sc)) = true) :
    runSeedScript sc db1 = updFirst (isTopCategory (seedTarget sc))
      (seedUpd (seedIcon sc) (seedDescription sc)) db1 := by
  cases sc with
  | headphones => exact genericSeed_update_branch _ _ _ db1 hany
  | smartWatches => exact genericSeed_update_branch _ _ _ db1 hany
  | tablets => exact genericSeed_update_branch _ _ _ db1 hany
  | stylers => exact stylersSeed_update_branch db1 hany

/-- C9.  Each of the four seeding scripts is idempotent: from a state
with at most one target row (target `level_0`, NULL `level_1`/`level_2`),
one run leaves exactly one target row with the script's icon set, and a
second run again leaves exactly one such row, inserts nothing (the row
count is unchanged), and updates the found row in place with `seedUpd`,
which sets the icon and fills the default description only when the
current description is falsy. -/
theorem C9_seed_idempotent (sc : SeedScript) (db : List CategoryRow)
    (h : targetCount (seedTarget sc) db ≤ 1) :
    targetCount (seedTarget sc) (runSeedScript sc db) = 1 ∧
    targetCount (seedTarget sc) (runSeedScript sc (runSeedScript sc db))
      = 1 ∧
    (runSeedScript sc (runSeedScript sc db)).length =
      (runSeedScript sc db).length ∧
    (∀ r ∈ runSeedScript sc db, isTopCategory (seedTarget sc) r = true →
      r.icon = some (seedIcon sc)) ∧
    (∀ r ∈ runSeedScript sc (runSeedScript sc db),
      isTopCategory (seedTarget sc) r = true →
      r.icon = some (seedIcon sc)) ∧
    (∀ r1, findTarget (seedTarget sc) (runSeedScript sc db) = some r1 →
      findTarget (seedTarget sc) (runSeedScript sc (runSeedScript sc db)) =
        some (seedUpd (seedIcon sc) (seedDescription sc) r1)) := by
  obtain ⟨hc1, hi1⟩ := runSeed_count_icons sc db h
  have hany1 : (runSeedScript sc db).any (isTopCategory (seedTarget sc))
      = true :=
    any_of_targetCount_pos _ _ (by omega)
  have h2 := runSeed_second sc (runSeedScript sc db) hany1
  obtain ⟨hc2, hi2⟩ := runSeed_count_icons sc (runSeedScript sc db)
    (by omega)
  refine ⟨hc1, hc2, ?_, hi1, hi2, ?_⟩
  · rw [h2]
    exact length_updFirst _ _ _
  · intro r1 hr1
    rw [h2]
    unfold findTarget at hr1 ⊢
    rw [find?_updFirst_self _ _ (seedUpd_isTop _ _ _) _]
    rw [hr1]
    rfl

end YoStore
namespace YoStore

/-- C9 witness: a double run of the stylers script from the empty
category table. -/
theorem C9_seed_idempotent_witness :
    targetCount (seedTarget SeedScript.stylers) [] ≤ 1 ∧
    targetCount (seedTarget SeedScript.stylers)
      (runSeedScript SeedScript.stylers []) = 1 ∧
    targetCount (seedTarget SeedScript.stylers)
      (runSeedScript SeedScript.stylers
        (runSeedScript SeedScript.stylers [])) = 1 := by
  have h := C9_seed_idempotent SeedScript.stylers [] (by decide)
  exact ⟨by decide, h.1, h.2.1⟩

/-- C10 witness: a promo check on the concrete C3 state returns it
unchanged, and a product delete preserves every promo usage count. -/
theorem C10_promo_check_read_only_witness :
    applyOp exStateC3 (.promoCheck 100 exReqC3) = exStateC3 ∧
    promoUsage (applyOp exStateC3 (.deleteById 5)) =
      promoUsage exStateC3 := by
  have h := C10_promo_check_read_only exStateC3 (.deleteById 5) 100 exReqC3
  exact ⟨h.2.1, h.2.2.1 rfl⟩

end YoStore

